import Mathlib

/-!
# Verification of the RCNET authoritative server core

A shallow embedding of the RCNET tick engine and its example server:

* the input codec (`ParseJsonClientInput_cJSON` with its `ClampFloat` axis
  clamp), the per-client ack tables and the receiver worker's receive path
  (`EnetNetworkThreadMain`, receive case);
* the tick-scheduled input ring (`gScheduledInputsRing`, indexed by
  `GetRingIndexForServerTick`) and the per-tick simulation step
  (`rcnet_simulation_update`);
* the engine main loop (`rcnet_engine_run` in the dual-clock engine):
  bounded simulation/network catch-up, backlog capping, and the sleep
  computation, with the four nullable callbacks.

Stateful C++ is embedded as explicit state passing; the two worker threads
are embedded as pure transition functions on their shared state, fired at
the linearisation points the source's atomics and mutexes establish.
-/

/-- Model of an IEEE `double`/`float` as used by the input codec: either NaN
or a finite value, modelled exactly as a rational.  The `double → float`
narrowing conversion is abstracted as the identity: the only operations the
code performs on axis values are comparisons and selection, which are exact
on the modelled values. -/
inductive FVal where
  | nan : FVal
  | fin (q : ℚ) : FVal
deriving DecidableEq

/-- IEEE `<` on doubles: any comparison involving NaN is false. -/
def FVal.lt : FVal → FVal → Bool
  | FVal.fin a, FVal.fin b => decide (a < b)
  | _, _ => false

/-- `ClampFloat` from `server.h`:
`if (v < minV) return minV; if (v > maxV) return maxV; return v;`
(`v > maxV` is `maxV < v`). -/
def ClampFloat (v minV maxV : FVal) : FVal :=
  if FVal.lt v minV then minV
  else if FVal.lt maxV v then maxV
  else v

/-- Model of the C++ cast `(uint32_t)d` for a `double d`: truncation toward
zero for values representable in `uint32_t`.  For negative, too-large or NaN
values the conversion is undefined behaviour in C++; the model returns `0`
there (no claim depends on that value). -/
def castU32 : FVal → ℕ
  | FVal.nan => 0
  | FVal.fin q => if 0 ≤ q ∧ q < 2 ^ 32 then ⌊q⌋.toNat else 0

/-- A cJSON value as far as the server inspects it: a number (carrying its
`valuedouble`) or anything else (string, bool, null, object, array). -/
inductive JVal where
  | jnum (v : FVal) : JVal
  | jother : JVal
deriving DecidableEq

/-- A parsed cJSON object: its fields in document order.  The whole payload
is `Option JObj`: `none` models bytes that are not valid JSON, `some root`
a successful `cJSON_Parse`.  The type is deliberately wider than what
`cJSON_Parse` can return — strict JSON has no `NaN` literal, and cJSON's
number parser feeds only digit, sign, exponent and dot characters to
`strtod`, so a genuinely parsed object never contains a NaN number item;
that reachable subset is characterised by `JObj.fromStrictJson` below. -/
abbrev JObj := List (String × JVal)

/-- `cJSON_GetObjectItemCaseSensitive`: first field with that exact name. -/
def cJSON_GetObjectItemCaseSensitive (root : JObj) (name : String) : Option JVal :=
  match root.find? (fun kv => kv.1 == name) with
  | some kv => some kv.2
  | none => none

/-- `cJSON_IsNumber(item)`: false on NULL, true exactly on number items. -/
def cJSON_IsNumber : Option JVal → Bool
  | some (JVal.jnum _) => true
  | _ => false

/-- The `valuedouble` field of an item (only read after `cJSON_IsNumber`). -/
def valuedouble : Option JVal → FVal
  | some (JVal.jnum v) => v
  | _ => FVal.fin 0

/-- `RCNET_ClientInput` from `server.h`. -/
structure RCNET_ClientInput where
  clientId : ℕ
  clientTickId : ℕ
  clientInputSeq : ℕ
  buttonsMask : ℕ
  axisX : FVal
  axisY : FVal
deriving DecidableEq

/-- `RCNET_QueuedInputForSimulation` from `server.h`. -/
structure RCNET_QueuedInputForSimulation where
  targetServerSimTickId : ℕ
  input : RCNET_ClientInput
deriving DecidableEq

/-- `kMaxServerClients` from `server.h`. -/
def kMaxServerClients : ℕ := 64

/-- `IsClientIdInRange` from `server.h`. -/
def IsClientIdInRange (clientId : ℕ) : Bool :=
  clientId < kMaxServerClients

/-- `kServerInputDelayInTicks` from `server.h`. -/
def kServerInputDelayInTicks : ℕ := 1

/-- `kScheduledInputsRingBufferSize` from `server.h`. -/
def kScheduledInputsRingBufferSize : ℕ := 256

/-- `ParseJsonClientInput_cJSON` from `server.h`, over the cJSON model.
Defaults are written first in the source; required fields `clientTick` and
`seq` are checked with `cJSON_IsNumber` only, then cast to `uint32_t`;
optional `buttons`, `ax`, `ay` are read when numeric, the axes through
`ClampFloat(·, -1, 1)`. -/
def ParseJsonClientInput_cJSON (payload : Option JObj) (clientId : ℕ) :
    Option RCNET_ClientInput :=
  match payload with
  | none => none
  | some root =>
    let clientTickItem := cJSON_GetObjectItemCaseSensitive root "clientTick"
    let seqItem := cJSON_GetObjectItemCaseSensitive root "seq"
    if cJSON_IsNumber clientTickItem && cJSON_IsNumber seqItem then
      some
        { clientId := clientId
          clientTickId := castU32 (valuedouble clientTickItem)
          clientInputSeq := castU32 (valuedouble seqItem)
          buttonsMask :=
            match cJSON_GetObjectItemCaseSensitive root "buttons" with
            | some (JVal.jnum v) => castU32 v
            | _ => 0
          axisX :=
            match cJSON_GetObjectItemCaseSensitive root "ax" with
            | some (JVal.jnum v) => ClampFloat v (FVal.fin (-1)) (FVal.fin 1)
            | _ => FVal.fin 0
          axisY :=
            match cJSON_GetObjectItemCaseSensitive root "ay" with
            | some (JVal.jnum v) => ClampFloat v (FVal.fin (-1)) (FVal.fin 1)
            | _ => FVal.fin 0 }
    else
      none

/-- `RCNET_ScheduledInputsSlot` from `server.h`. -/
structure RCNET_ScheduledInputsSlot where
  serverTickIdForThisSlot : ℕ
  inputsToApply : List RCNET_ClientInput
deriving DecidableEq

/-- The ring `gScheduledInputsRing`: one slot per ring index. -/
abbrev ScheduledInputsRing :=
  Fin kScheduledInputsRingBufferSize → RCNET_ScheduledInputsSlot

/-- `GetRingIndexForServerTick` from `server.h`:
`serverTickId % kScheduledInputsRingBufferSize`. -/
def GetRingIndexForServerTick (serverTickId : ℕ) :
    Fin kScheduledInputsRingBufferSize :=
  ⟨serverTickId % kScheduledInputsRingBufferSize, Nat.mod_lt _ (by decide)⟩

/-- The ring after `rcnet_unload` / at startup: every slot has
`serverTickIdForThisSlot = 0` and empty `inputsToApply`. -/
def initialScheduledInputsRing : ScheduledInputsRing :=
  fun _ => { serverTickIdForThisSlot := 0, inputsToApply := [] }

/-- The schedule step of `rcnet_simulation_update` (step 3): place one
queued input into the ring slot of its target tick, lazily resetting a
stale slot first. -/
def scheduleInputIntoRing (ring : ScheduledInputsRing) (targetTick : ℕ)
    (input : RCNET_ClientInput) : ScheduledInputsRing :=
  let ringIndex := GetRingIndexForServerTick targetTick
  let slot := ring ringIndex
  let slot' :=
    if slot.serverTickIdForThisSlot = targetTick then slot
    else { serverTickIdForThisSlot := targetTick, inputsToApply := [] }
  Function.update ring ringIndex
    { slot' with inputsToApply := slot'.inputsToApply ++ [input] }

/-- The take step of `rcnet_simulation_update` (steps 4–5): if the slot of
the current tick is live (`serverTickIdForThisSlot` equals the tick) return
its inputs and clear them, otherwise return none. -/
def takeInputsForTick (ring : ScheduledInputsRing) (currentTick : ℕ) :
    List RCNET_ClientInput × ScheduledInputsRing :=
  let ringIndex := GetRingIndexForServerTick currentTick
  let slot := ring ringIndex
  if slot.serverTickIdForThisSlot = currentTick then
    (slot.inputsToApply, Function.update ring ringIndex { slot with inputsToApply := [] })
  else
    ([], ring)

/-- The ack store of the apply loop: `gLastAppliedInputSeqByClientId[id] =
seq` guarded by `IsClientIdInRange` (a plain store, not a max). -/
def recordAppliedSeq (lastApplied : ℕ → ℕ) (input : RCNET_ClientInput) : ℕ → ℕ :=
  if IsClientIdInRange input.clientId then
    Function.update lastApplied input.clientId input.clientInputSeq
  else
    lastApplied

/-- The ack store of the receive path: `gLastReceivedInputSeqByClientId[id]
= seq` guarded by `IsClientIdInRange`. -/
def recordReceivedSeq (lastReceived : ℕ → ℕ) (input : RCNET_ClientInput) : ℕ → ℕ :=
  if IsClientIdInRange input.clientId then
    Function.update lastReceived input.clientId input.clientInputSeq
  else
    lastReceived

/-- The server state touched by `rcnet_simulation_update`: the shared tick
counter, the handoff queue, the ring, and the applied-seq ack array
(modelled as a function; indices `≥ kMaxServerClients` are never written). -/
structure ServerSimState where
  gCurrentServerSimulationTickId : ℕ
  gIncomingInputsQueue : List RCNET_QueuedInputForSimulation
  gScheduledInputsRing : ScheduledInputsRing
  gLastAppliedInputSeqByClientId : ℕ → ℕ

/-- `rcnet_simulation_update` from `server.h`, without the gameplay TODOs:
(1) increment the server tick; (2) drain the handoff queue (swap, so the
queue is left empty); (3) schedule each drained input into the ring at its
target tick; (4–5) if the current tick's slot is live, apply its inputs
(storing each `clientInputSeq` into the applied-seq array in order) and
clear the slot.  Returns the new state and the list of inputs applied this
tick. -/
def rcnet_simulation_update (st : ServerSimState) :
    ServerSimState × List RCNET_ClientInput :=
  let serverSimTickId := st.gCurrentServerSimulationTickId + 1
  let newlyReceivedInputs := st.gIncomingInputsQueue
  let ring1 := newlyReceivedInputs.foldl
    (fun r queued => scheduleInputIntoRing r queued.targetServerSimTickId queued.input)
    st.gScheduledInputsRing
  let taken := takeInputsForTick ring1 serverSimTickId
  let lastApplied1 := taken.1.foldl recordAppliedSeq st.gLastAppliedInputSeqByClientId
  ({ gCurrentServerSimulationTickId := serverSimTickId
     gIncomingInputsQueue := []
     gScheduledInputsRing := taken.2
     gLastAppliedInputSeqByClientId := lastApplied1 }, taken.1)

/-- The receiver worker's state: the received-seq ack array and the handoff
queue (the simulation tick counter is read, not written, here). -/
structure ReceiverState where
  gLastReceivedInputSeqByClientId : ℕ → ℕ
  gIncomingInputsQueue : List RCNET_QueuedInputForSimulation

/-- The `ENET_EVENT_TYPE_RECEIVE` case of `EnetNetworkThreadMain`: parse the
payload; on success record the received seq (bounds-checked), read the
shared simulation tick, and push `{tick + kServerInputDelayInTicks, input}`
into the handoff queue; on parse failure only log. -/
def enetReceiveEvent (st : ReceiverState) (currentServerTickId : ℕ)
    (payload : Option JObj) (clientId : ℕ) : ReceiverState :=
  match ParseJsonClientInput_cJSON payload clientId with
  | some parsedInput =>
    let lastReceived' := recordReceivedSeq st.gLastReceivedInputSeqByClientId parsedInput
    let targetServerTickId := currentServerTickId + kServerInputDelayInTicks
    { gLastReceivedInputSeqByClientId := lastReceived'
      gIncomingInputsQueue := st.gIncomingInputsQueue ++
        [{ targetServerSimTickId := targetServerTickId, input := parsedInput }] }
  | none => st

/-! ## The dual-clock engine (`rcnet_engine_run` and helpers) -/

/-- `kMaxCatchUpTicks` from the engine: catch-up bound per iteration. -/
def kMaxCatchUpTicks : ℕ := 5

/-- `kMaxFrameClampNs` from the engine: frame-time clamp (250 ms). -/
def kMaxFrameClampNs : ℕ := 250000000

/-- `RCNET_Callbacks`: the four nullable hooks, over an abstract world `W`
owned by the host.  A NULL function pointer is `none`. -/
structure RCNET_Callbacks (W : Type) where
  rcnet_load : Option (W → W)
  rcnet_unload : Option (W → W)
  rcnet_simulation_update : Option (ℚ → W → W)
  rcnet_network_update : Option (W → W)

/-- The initial value of the global `callbacksServerEngine`: all NULL. -/
def initialCallbacks (W : Type) : RCNET_Callbacks W :=
  { rcnet_load := none, rcnet_unload := none
    rcnet_simulation_update := none, rcnet_network_update := none }

/-- `rcnet_engine_setCallbacks`: each member of the user struct overwrites
the engine's member only when it is non-NULL. -/
def rcnet_engine_setCallbacks (cur user : RCNET_Callbacks W) : RCNET_Callbacks W :=
  { rcnet_load :=
      match user.rcnet_load with | some f => some f | none => cur.rcnet_load
    rcnet_unload :=
      match user.rcnet_unload with | some f => some f | none => cur.rcnet_unload
    rcnet_simulation_update :=
      match user.rcnet_simulation_update with
      | some f => some f | none => cur.rcnet_simulation_update
    rcnet_network_update :=
      match user.rcnet_network_update with
      | some f => some f | none => cur.rcnet_network_update }

/-- The engine globals of the dual-clock engine: tick rates, derived
periods, tick ids, the registered callbacks, and the host's world. -/
structure EngineState (W : Type) where
  callbacksServerEngine : RCNET_Callbacks W
  simTickRateHz : ℕ
  netTickRateHz : ℕ
  simTickDurationNs : ℕ
  netTickDurationNs : ℕ
  simFixedDt : ℚ
  simTickId : ℕ
  netTickId : ℕ
  world : W

/-- `rcnet_engine_simulationTick`: increment `simTickId`, then call the
simulation callback with the fixed dt when it is non-NULL. -/
def rcnet_engine_simulationTick (st : EngineState W) : EngineState W :=
  { st with
    simTickId := st.simTickId + 1
    world :=
      match st.callbacksServerEngine.rcnet_simulation_update with
      | some f => f st.simFixedDt st.world
      | none => st.world }

/-- `rcnet_engine_networkTick`: increment `netTickId`, then call the
network callback when it is non-NULL. -/
def rcnet_engine_networkTick (st : EngineState W) : EngineState W :=
  { st with
    netTickId := st.netTickId + 1
    world :=
      match st.callbacksServerEngine.rcnet_network_update with
      | some f => f st.world
      | none => st.world }

/-- The loop-local state of `rcnet_engine_run`: the engine globals plus the
two accumulators (`accSimNs`, `accNetNs`). -/
structure EngineLoopState (W : Type) where
  engine : EngineState W
  accSimNs : ℕ
  accNetNs : ℕ

/-- The simulation catch-up loop of `rcnet_engine_run`:
`while (accSimNs >= simTickDurationNs && catchUpSim < kMaxCatchUpTicks)`
tick, subtract one period, count.  `fuel = kMaxCatchUpTicks - catchUpSim`. -/
def simCatchUpLoop (fuel : ℕ) (ls : EngineLoopState W) : EngineLoopState W :=
  match fuel with
  | 0 => ls
  | f + 1 =>
    if ls.engine.simTickDurationNs ≤ ls.accSimNs then
      simCatchUpLoop f
        { engine := rcnet_engine_simulationTick ls.engine
          accSimNs := ls.accSimNs - ls.engine.simTickDurationNs
          accNetNs := ls.accNetNs }
    else
      ls

/-- The network catch-up loop of `rcnet_engine_run`, same bounded shape. -/
def netCatchUpLoop (fuel : ℕ) (ls : EngineLoopState W) : EngineLoopState W :=
  match fuel with
  | 0 => ls
  | f + 1 =>
    if ls.engine.netTickDurationNs ≤ ls.accNetNs then
      netCatchUpLoop f
        { engine := rcnet_engine_networkTick ls.engine
          accSimNs := ls.accSimNs
          accNetNs := ls.accNetNs - ls.engine.netTickDurationNs }
    else
      ls

/-- The end-of-iteration sleep computation of `rcnet_engine_run`: the time
remaining to the next sim tick and to the next net tick, combined by the
source's branch ladder (`0` only when both are zero; when exactly one is
zero, the other; otherwise the minimum). -/
def computeSleepNs (ls : EngineLoopState W) : ℕ :=
  let simRemainingNs :=
    if ls.accSimNs < ls.engine.simTickDurationNs then
      ls.engine.simTickDurationNs - ls.accSimNs
    else 0
  let netRemainingNs :=
    if ls.accNetNs < ls.engine.netTickDurationNs then
      ls.engine.netTickDurationNs - ls.accNetNs
    else 0
  if simRemainingNs = 0 && netRemainingNs = 0 then 0
  else if simRemainingNs = 0 then netRemainingNs
  else if netRemainingNs = 0 then simRemainingNs
  else if simRemainingNs < netRemainingNs then simRemainingNs else netRemainingNs

/-- One iteration's outcome: new loop state, whether each backlog warning
was logged, and the `sleepNs` the iteration ends by sleeping for. -/
structure EngineIterResult (W : Type) where
  loopState : EngineLoopState W
  simBacklogWarned : Bool
  netBacklogWarned : Bool
  sleepNs : ℕ

/-- The post-catch-up simulation backlog check of `rcnet_engine_run`: if a
full period still remains after the bounded loop, log the backlog warning
and keep exactly one period of backlog. -/
def simBacklogCap (ls : EngineLoopState W) : EngineLoopState W × Bool :=
  if ls.engine.simTickDurationNs ≤ ls.accSimNs then
    ({ ls with accSimNs := ls.engine.simTickDurationNs }, true)
  else
    (ls, false)

/-- The post-catch-up network backlog check, same policy. -/
def netBacklogCap (ls : EngineLoopState W) : EngineLoopState W × Bool :=
  if ls.engine.netTickDurationNs ≤ ls.accNetNs then
    ({ ls with accNetNs := ls.engine.netTickDurationNs }, true)
  else
    (ls, false)

/-- One full iteration of the `while (serverIsRunning)` body of
`rcnet_engine_run`, driven by the measured frame time `frameNsRaw =
nowNs - lastTimeNs`: clamp the frame, feed both accumulators, run the two
bounded catch-up loops, cap each backlog to exactly one period (logging a
warning), and compute `sleepNs` from the two remaining times exactly as the
source's branch ladder does. -/
def rcnet_engine_runIteration (frameNsRaw : ℕ) (ls : EngineLoopState W) :
    EngineIterResult W :=
  let frameNs := if frameNsRaw > kMaxFrameClampNs then kMaxFrameClampNs else frameNsRaw
  let ls1 : EngineLoopState W :=
    { ls with accSimNs := ls.accSimNs + frameNs, accNetNs := ls.accNetNs + frameNs }
  let ls2 := simCatchUpLoop kMaxCatchUpTicks ls1
  let simCap := simBacklogCap ls2
  let ls3 := simCap.1
  let simWarn := simCap.2
  let ls4 := netCatchUpLoop kMaxCatchUpTicks ls3
  let netCap := netBacklogCap ls4
  let ls5 := netCap.1
  let netWarn := netCap.2
  { loopState := ls5, simBacklogWarned := simWarn, netBacklogWarned := netWarn
    sleepNs := computeSleepNs ls5 }

/-- The main loop over a finite trace of measured frame times (the loop
ends when the shared `serverIsRunning` flag is cleared; the model runs the
iterations the flag allowed). -/
def rcnet_engine_runLoop (frames : List ℕ) (ls : EngineLoopState W) :
    EngineLoopState W :=
  frames.foldl (fun s f => (rcnet_engine_runIteration f s).loopState) ls

/-- The guarded `rcnet_load` call of `rcnet_engine_run`. -/
def applyLoadHook (e : EngineState W) : EngineState W :=
  match e.callbacksServerEngine.rcnet_load with
  | some f => { e with world := f e.world }
  | none => e

/-- The guarded `rcnet_unload` call of `rcnet_engine_run`. -/
def applyUnloadHook (e : EngineState W) : EngineState W :=
  match e.callbacksServerEngine.rcnet_unload with
  | some f => { e with world := f e.world }
  | none => e

/-- `rcnet_engine_run` of the dual-clock engine: merge the user callbacks
when the pointer is non-NULL, validate the two tick rates (fallbacks 60 and
20), derive periods and fixed dt, call `rcnet_load` if set, run the main
loop over the given frame-time trace, then call `rcnet_unload` if set.
Initialisation of the external libraries is modelled as succeeding. -/
def rcnet_engine_run (callbacksUser : Option (RCNET_Callbacks W))
    (simTickRateArg netTickRateArg : ℤ) (frames : List ℕ) (world0 : W) :
    EngineState W :=
  let cbs :=
    match callbacksUser with
    | some user => rcnet_engine_setCallbacks (initialCallbacks W) user
    | none => initialCallbacks W
  let simHz : ℕ := if simTickRateArg > 0 then simTickRateArg.toNat else 60
  let netHz : ℕ := if netTickRateArg > 0 then netTickRateArg.toNat else 20
  let st0 : EngineState W :=
    { callbacksServerEngine := cbs
      simTickRateHz := simHz
      netTickRateHz := netHz
      simTickDurationNs := 1000000000 / simHz
      netTickDurationNs := 1000000000 / netHz
      simFixedDt := 1 / (simHz : ℚ)
      simTickId := 0
      netTickId := 0
      world := world0 }
  let st1 := applyLoadHook st0
  let lsEnd := rcnet_engine_runLoop frames { engine := st1, accSimNs := 0, accNetNs := 0 }
  applyUnloadHook lsEnd.engine

/-! ## Ring lemmas and claim C1 -/

/-- Scheduling into ring indices is stable under adding the ring size. -/
theorem GetRingIndexForServerTick_add_size (t : ℕ) :
    GetRingIndexForServerTick (t + kScheduledInputsRingBufferSize) =
      GetRingIndexForServerTick t := by
  simp [GetRingIndexForServerTick, Nat.add_mod_right]

/-- Scheduling into a slot that holds no inputs stamps the slot with the
target tick and stores exactly the new input, whether or not the stamp
already matched. -/
theorem scheduleInputIntoRing_of_empty (ring : ScheduledInputsRing) (t : ℕ)
    (x : RCNET_ClientInput)
    (h : (ring (GetRingIndexForServerTick t)).inputsToApply = []) :
    scheduleInputIntoRing ring t x =
      Function.update ring (GetRingIndexForServerTick t)
        { serverTickIdForThisSlot := t, inputsToApply := [x] } := by
  by_cases hc : (ring (GetRingIndexForServerTick t)).serverTickIdForThisSlot = t
  · simp [scheduleInputIntoRing, hc, h]
  · simp [scheduleInputIntoRing, hc]

/-- Scheduling into a slot whose stamp differs from the target resets the
slot: it ends holding exactly the new input, stamped with the target. -/
theorem scheduleInputIntoRing_of_stale (ring : ScheduledInputsRing) (t : ℕ)
    (x : RCNET_ClientInput)
    (h : (ring (GetRingIndexForServerTick t)).serverTickIdForThisSlot ≠ t) :
    scheduleInputIntoRing ring t x =
      Function.update ring (GetRingIndexForServerTick t)
        { serverTickIdForThisSlot := t, inputsToApply := [x] } := by
  unfold scheduleInputIntoRing
  simp [h]

/-- C1. For the tick-scheduled input ring of capacity
`kScheduledInputsRingBufferSize = 256`, starting from the reset ring: for
every tick `t` and input `x`, `schedule(t, x)` followed by `take(t)` yields
exactly `[x]`, and a second `take(t)` yields `[]`; moreover for every `y`,
`schedule(t, x); schedule(t + 256, y)` makes `take(t)` yield `[]` (the
wrapped-around stale slot was lazily reset by the stamp check) and
`take(t + 256)` yield `[y]`. -/
theorem ring_schedule_take_roundtrip_and_wrap (t : ℕ) (x y : RCNET_ClientInput) :
    (takeInputsForTick (scheduleInputIntoRing initialScheduledInputsRing t x) t).1 = [x] ∧
    (takeInputsForTick
      (takeInputsForTick (scheduleInputIntoRing initialScheduledInputsRing t x) t).2 t).1
      = [] ∧
    (takeInputsForTick
      (scheduleInputIntoRing (scheduleInputIntoRing initialScheduledInputsRing t x)
        (t + kScheduledInputsRingBufferSize) y) t).1 = [] ∧
    (takeInputsForTick
      (scheduleInputIntoRing (scheduleInputIntoRing initialScheduledInputsRing t x)
        (t + kScheduledInputsRingBufferSize) y)
      (t + kScheduledInputsRingBufferSize)).1 = [y] := by
  have hinit : (initialScheduledInputsRing (GetRingIndexForServerTick t)).inputsToApply = [] :=
    rfl
  have h1 := scheduleInputIntoRing_of_empty initialScheduledInputsRing t x hinit
  have hne : t + kScheduledInputsRingBufferSize ≠ t := by
    simp [kScheduledInputsRingBufferSize]
  have hstale :
      (scheduleInputIntoRing initialScheduledInputsRing t x
          (GetRingIndexForServerTick (t + kScheduledInputsRingBufferSize))).serverTickIdForThisSlot
        ≠ t + kScheduledInputsRingBufferSize := by
    rw [GetRingIndexForServerTick_add_size, h1]
    simp [Function.update_same, hne.symm]
  have h2 := scheduleInputIntoRing_of_stale
    (scheduleInputIntoRing initialScheduledInputsRing t x)
    (t + kScheduledInputsRingBufferSize) y hstale
  refine ⟨?_, ?_, ?_, ?_⟩
  · rw [h1]
    simp [takeInputsForTick, Function.update_same]
  · rw [h1]
    simp [takeInputsForTick, Function.update_same]
  · rw [h2, h1, GetRingIndexForServerTick_add_size]
    simp [takeInputsForTick, Function.update_same, hne]
  · rw [h2, h1]
    simp [takeInputsForTick, GetRingIndexForServerTick_add_size, Function.update_same]

/-! ## Receiver-path lemmas and claim C2 -/

/-- A successful parse stores the caller's peer id in `clientId`. -/
theorem ParseJsonClientInput_cJSON_clientId_eq (payload : Option JObj)
    (clientId : ℕ) (input : RCNET_ClientInput)
    (h : ParseJsonClientInput_cJSON payload clientId = some input) :
    input.clientId = clientId := by
  cases payload with
  | none => simp [ParseJsonClientInput_cJSON] at h
  | some root =>
    by_cases hc : (cJSON_IsNumber (cJSON_GetObjectItemCaseSensitive root "clientTick") &&
        cJSON_IsNumber (cJSON_GetObjectItemCaseSensitive root "seq")) = true
    · simp only [ParseJsonClientInput_cJSON, hc, if_true, Option.some.injEq] at h
      rw [← h]
    · simp [ParseJsonClientInput_cJSON, hc] at h

/-- C2. For every receive event whose payload parses successfully, the
receiver worker pushes a queued input whose `targetServerSimTickId` is the
shared simulation tick read at that moment plus the input delay (which is 1
in the default configuration), and — when the client id is in range —
records `last_recv[client_id] = seq`. -/
theorem enetReceiveEvent_records_and_schedules (st : ReceiverState)
    (currentServerTickId : ℕ) (payload : Option JObj) (clientId : ℕ)
    (input : RCNET_ClientInput)
    (hparse : ParseJsonClientInput_cJSON payload clientId = some input) :
    kServerInputDelayInTicks = 1 ∧
    (enetReceiveEvent st currentServerTickId payload clientId).gIncomingInputsQueue =
      st.gIncomingInputsQueue ++
        [{ targetServerSimTickId := currentServerTickId + kServerInputDelayInTicks,
           input := input }] ∧
    (IsClientIdInRange clientId = true →
      (enetReceiveEvent st currentServerTickId payload
        clientId).gLastReceivedInputSeqByClientId clientId = input.clientInputSeq) := by
  have hid := ParseJsonClientInput_cJSON_clientId_eq payload clientId input hparse
  refine ⟨rfl, ?_, ?_⟩
  · simp [enetReceiveEvent, hparse]
  · intro hrange
    simp only [enetReceiveEvent, hparse]
    rw [recordReceivedSeq, hid, if_pos hrange]
    exact Function.update_same _ _ _

/-- Witness for C2 at a concrete receive: payload
`{"clientTick": 7, "seq": 1}` from peer 0 while the simulation tick is 100
queues `{target 101, input}` and sets `last_recv[0] = 1`. -/
theorem enetReceiveEvent_records_and_schedules_witness :
    (enetReceiveEvent
      { gLastReceivedInputSeqByClientId := (fun _ => 0)
        gIncomingInputsQueue := [] } 100
      (some [("clientTick", JVal.jnum (FVal.fin 7)), ("seq", JVal.jnum (FVal.fin 1))])
      0).gIncomingInputsQueue =
      [{ targetServerSimTickId := 101,
         input := { clientId := 0, clientTickId := 7, clientInputSeq := 1,
                    buttonsMask := 0, axisX := FVal.fin 0, axisY := FVal.fin 0 } }] ∧
    (enetReceiveEvent
      { gLastReceivedInputSeqByClientId := (fun _ => 0)
        gIncomingInputsQueue := [] } 100
      (some [("clientTick", JVal.jnum (FVal.fin 7)), ("seq", JVal.jnum (FVal.fin 1))])
      0).gLastReceivedInputSeqByClientId 0 = 1 := by
  have h := enetReceiveEvent_records_and_schedules
    { gLastReceivedInputSeqByClientId := (fun _ => 0), gIncomingInputsQueue := [] }
    100
    (some [("clientTick", JVal.jnum (FVal.fin 7)), ("seq", JVal.jnum (FVal.fin 1))])
    0
    { clientId := 0, clientTickId := 7, clientInputSeq := 1,
      buttonsMask := 0, axisX := FVal.fin 0, axisY := FVal.fin 0 }
    (by decide)
  exact ⟨by rw [h.2.1]; decide, by rw [h.2.2 (by decide)]⟩

/-! ## Engine catch-up lemmas and claim C3 -/

theorem rcnet_engine_simulationTick_simTickId (st : EngineState W) :
    (rcnet_engine_simulationTick st).simTickId = st.simTickId + 1 := rfl

theorem rcnet_engine_simulationTick_netTickId (st : EngineState W) :
    (rcnet_engine_simulationTick st).netTickId = st.netTickId := rfl

theorem rcnet_engine_simulationTick_simTickDurationNs (st : EngineState W) :
    (rcnet_engine_simulationTick st).simTickDurationNs = st.simTickDurationNs := rfl

theorem rcnet_engine_simulationTick_netTickDurationNs (st : EngineState W) :
    (rcnet_engine_simulationTick st).netTickDurationNs = st.netTickDurationNs := rfl

theorem rcnet_engine_networkTick_netTickId (st : EngineState W) :
    (rcnet_engine_networkTick st).netTickId = st.netTickId + 1 := rfl

theorem rcnet_engine_networkTick_simTickId (st : EngineState W) :
    (rcnet_engine_networkTick st).simTickId = st.simTickId := rfl

theorem rcnet_engine_networkTick_simTickDurationNs (st : EngineState W) :
    (rcnet_engine_networkTick st).simTickDurationNs = st.simTickDurationNs := rfl

theorem rcnet_engine_networkTick_netTickDurationNs (st : EngineState W) :
    (rcnet_engine_networkTick st).netTickDurationNs = st.netTickDurationNs := rfl

/-- The simulation catch-up loop leaves both tick periods, the network tick
id and the network accumulator untouched, and fires at most `fuel`
simulation ticks. -/
theorem simCatchUpLoop_invariants (fuel : ℕ) (ls : EngineLoopState W) :
    (simCatchUpLoop fuel ls).engine.simTickDurationNs = ls.engine.simTickDurationNs ∧
    (simCatchUpLoop fuel ls).engine.netTickDurationNs = ls.engine.netTickDurationNs ∧
    (simCatchUpLoop fuel ls).engine.netTickId = ls.engine.netTickId ∧
    (simCatchUpLoop fuel ls).accNetNs = ls.accNetNs ∧
    (simCatchUpLoop fuel ls).engine.simTickId ≤ ls.engine.simTickId + fuel := by
  induction fuel generalizing ls with
  | zero => simp [simCatchUpLoop]
  | succ f ih =>
    rw [simCatchUpLoop]
    by_cases hc : ls.engine.simTickDurationNs ≤ ls.accSimNs
    · simp only [if_pos hc]
      have h := ih
        { engine := rcnet_engine_simulationTick ls.engine
          accSimNs := ls.accSimNs - ls.engine.simTickDurationNs
          accNetNs := ls.accNetNs }
      simp only [rcnet_engine_simulationTick_simTickId,
        rcnet_engine_simulationTick_netTickId,
        rcnet_engine_simulationTick_simTickDurationNs,
        rcnet_engine_simulationTick_netTickDurationNs] at h
      exact ⟨h.1, h.2.1, h.2.2.1, h.2.2.2.1, by have := h.2.2.2.2; omega⟩
    · simp [if_neg hc]

/-- The network catch-up loop leaves both tick periods, the simulation tick
id and the simulation accumulator untouched, and fires at most `fuel`
network ticks. -/
theorem netCatchUpLoop_invariants (fuel : ℕ) (ls : EngineLoopState W) :
    (netCatchUpLoop fuel ls).engine.simTickDurationNs = ls.engine.simTickDurationNs ∧
    (netCatchUpLoop fuel ls).engine.netTickDurationNs = ls.engine.netTickDurationNs ∧
    (netCatchUpLoop fuel ls).engine.simTickId = ls.engine.simTickId ∧
    (netCatchUpLoop fuel ls).accSimNs = ls.accSimNs ∧
    (netCatchUpLoop fuel ls).engine.netTickId ≤ ls.engine.netTickId + fuel := by
  induction fuel generalizing ls with
  | zero => simp [netCatchUpLoop]
  | succ f ih =>
    rw [netCatchUpLoop]
    by_cases hc : ls.engine.netTickDurationNs ≤ ls.accNetNs
    · simp only [if_pos hc]
      have h := ih
        { engine := rcnet_engine_networkTick ls.engine
          accSimNs := ls.accSimNs
          accNetNs := ls.accNetNs - ls.engine.netTickDurationNs }
      simp only [rcnet_engine_networkTick_netTickId,
        rcnet_engine_networkTick_simTickId,
        rcnet_engine_networkTick_simTickDurationNs,
        rcnet_engine_networkTick_netTickDurationNs] at h
      exact ⟨h.1, h.2.1, h.2.2.1, h.2.2.2.1, by have := h.2.2.2.2; omega⟩
    · simp [if_neg hc]

/-- The simulation backlog check: the engine globals and the network
accumulator are untouched; when it fires the simulation accumulator is
capped to exactly one period, otherwise it is already below one period. -/
theorem simBacklogCap_spec (ls : EngineLoopState W) :
    (simBacklogCap ls).1.engine = ls.engine ∧
    (simBacklogCap ls).1.accNetNs = ls.accNetNs ∧
    ((simBacklogCap ls).2 = true →
      (simBacklogCap ls).1.accSimNs = ls.engine.simTickDurationNs) ∧
    ((simBacklogCap ls).2 = false →
      (simBacklogCap ls).1.accSimNs < ls.engine.simTickDurationNs) := by
  by_cases hc : ls.engine.simTickDurationNs ≤ ls.accSimNs
  · refine ⟨?_, ?_, ?_, ?_⟩ <;> simp [simBacklogCap, hc]
  · refine ⟨?_, ?_, ?_, ?_⟩ <;> simp [simBacklogCap, hc]
    omega

/-- The network backlog check, symmetric to `simBacklogCap_spec`. -/
theorem netBacklogCap_spec (ls : EngineLoopState W) :
    (netBacklogCap ls).1.engine = ls.engine ∧
    (netBacklogCap ls).1.accSimNs = ls.accSimNs ∧
    ((netBacklogCap ls).2 = true →
      (netBacklogCap ls).1.accNetNs = ls.engine.netTickDurationNs) ∧
    ((netBacklogCap ls).2 = false →
      (netBacklogCap ls).1.accNetNs < ls.engine.netTickDurationNs) := by
  by_cases hc : ls.engine.netTickDurationNs ≤ ls.accNetNs
  · refine ⟨?_, ?_, ?_, ?_⟩ <;> simp [netBacklogCap, hc]
  · refine ⟨?_, ?_, ?_, ?_⟩ <;> simp [netBacklogCap, hc]
    omega

/-- The iteration body after the accumulators were fed: at most
`kMaxCatchUpTicks` ticks of each kind fire, each accumulator ends at or
below one period, and ends at exactly one period precisely when the
corresponding backlog warning was logged (below it when not). -/
theorem runIterationCore (ls1 : EngineLoopState W) :
    (netBacklogCap (netCatchUpLoop kMaxCatchUpTicks
        (simBacklogCap (simCatchUpLoop kMaxCatchUpTicks ls1)).1)).1.engine.simTickId
      ≤ ls1.engine.simTickId + kMaxCatchUpTicks ∧
    (netBacklogCap (netCatchUpLoop kMaxCatchUpTicks
        (simBacklogCap (simCatchUpLoop kMaxCatchUpTicks ls1)).1)).1.engine.netTickId
      ≤ ls1.engine.netTickId + kMaxCatchUpTicks ∧
    (netBacklogCap (netCatchUpLoop kMaxCatchUpTicks
        (simBacklogCap (simCatchUpLoop kMaxCatchUpTicks ls1)).1)).1.accSimNs
      ≤ ls1.engine.simTickDurationNs ∧
    (netBacklogCap (netCatchUpLoop kMaxCatchUpTicks
        (simBacklogCap (simCatchUpLoop kMaxCatchUpTicks ls1)).1)).1.accNetNs
      ≤ ls1.engine.netTickDurationNs ∧
    ((simBacklogCap (simCatchUpLoop kMaxCatchUpTicks ls1)).2 = true →
      (netBacklogCap (netCatchUpLoop kMaxCatchUpTicks
        (simBacklogCap (simCatchUpLoop kMaxCatchUpTicks ls1)).1)).1.accSimNs
        = ls1.engine.simTickDurationNs) ∧
    ((simBacklogCap (simCatchUpLoop kMaxCatchUpTicks ls1)).2 = false →
      (netBacklogCap (netCatchUpLoop kMaxCatchUpTicks
        (simBacklogCap (simCatchUpLoop kMaxCatchUpTicks ls1)).1)).1.accSimNs
        < ls1.engine.simTickDurationNs) ∧
    ((netBacklogCap (netCatchUpLoop kMaxCatchUpTicks
        (simBacklogCap (simCatchUpLoop kMaxCatchUpTicks ls1)).1)).2 = true →
      (netBacklogCap (netCatchUpLoop kMaxCatchUpTicks
        (simBacklogCap (simCatchUpLoop kMaxCatchUpTicks ls1)).1)).1.accNetNs
        = ls1.engine.netTickDurationNs) ∧
    ((netBacklogCap (netCatchUpLoop kMaxCatchUpTicks
        (simBacklogCap (simCatchUpLoop kMaxCatchUpTicks ls1)).1)).2 = false →
      (netBacklogCap (netCatchUpLoop kMaxCatchUpTicks
        (simBacklogCap (simCatchUpLoop kMaxCatchUpTicks ls1)).1)).1.accNetNs
        < ls1.engine.netTickDurationNs) := by
  set ls2 := simCatchUpLoop kMaxCatchUpTicks ls1 with hls2
  set sc := simBacklogCap ls2 with hsc
  set ls4 := netCatchUpLoop kMaxCatchUpTicks sc.1 with hls4
  set nc := netBacklogCap ls4 with hnc
  have hL2 := simCatchUpLoop_invariants kMaxCatchUpTicks ls1
  rw [← hls2] at hL2
  have hC2 := simBacklogCap_spec ls2
  rw [← hsc] at hC2
  have hL4 := netCatchUpLoop_invariants kMaxCatchUpTicks sc.1
  rw [← hls4] at hL4
  have hC4 := netBacklogCap_spec ls4
  rw [← hnc] at hC4
  obtain ⟨hL2d, hL2nd, hL2nt, hL2an, hL2st⟩ := hL2
  obtain ⟨e2, a2, w2t, w2f⟩ := hC2
  obtain ⟨hL4d, hL4nd, hL4st, hL4as, hL4nt⟩ := hL4
  obtain ⟨e4, a4, w4t, w4f⟩ := hC4
  rw [e2] at hL4d hL4nd hL4st hL4nt
  have e4s : nc.1.engine.simTickId = ls4.engine.simTickId := by rw [e4]
  have e4n : nc.1.engine.netTickId = ls4.engine.netTickId := by rw [e4]
  refine ⟨?_, ?_, ?_, ?_, ?_, ?_, ?_, ?_⟩
  · omega
  · omega
  · rcases Bool.eq_false_or_eq_true sc.2 with hb | hb
    · have := w2t hb; omega
    · have := w2f hb; omega
  · rcases Bool.eq_false_or_eq_true nc.2 with hb | hb
    · have := w4t hb; omega
    · have := w4f hb; omega
  · intro hb; have := w2t hb; omega
  · intro hb; have := w2f hb; omega
  · intro hb; have := w4t hb; omega
  · intro hb; have := w4f hb; omega

/-- C3. In every engine-loop iteration at most `kMaxCatchUpTicks = 5`
simulation ticks and at most 5 network ticks execute, and at the end of the
iteration each accumulator satisfies `acc ≤ period`; whenever the
accumulator still held at least one full period after the bounded catch-up
loop the backlog warning was logged and the accumulator was capped to
exactly one period (when no warning was logged it ended strictly below one
period).  The same bounded pattern and cap apply to the network
accumulator. -/
theorem engine_iteration_bounded_catchup (frameNsRaw : ℕ) (ls : EngineLoopState W) :
    kMaxCatchUpTicks = 5 ∧
    (rcnet_engine_runIteration frameNsRaw ls).loopState.engine.simTickId
      ≤ ls.engine.simTickId + kMaxCatchUpTicks ∧
    (rcnet_engine_runIteration frameNsRaw ls).loopState.engine.netTickId
      ≤ ls.engine.netTickId + kMaxCatchUpTicks ∧
    (rcnet_engine_runIteration frameNsRaw ls).loopState.accSimNs
      ≤ ls.engine.simTickDurationNs ∧
    (rcnet_engine_runIteration frameNsRaw ls).loopState.accNetNs
      ≤ ls.engine.netTickDurationNs ∧
    ((rcnet_engine_runIteration frameNsRaw ls).simBacklogWarned = true →
      (rcnet_engine_runIteration frameNsRaw ls).loopState.accSimNs
        = ls.engine.simTickDurationNs) ∧
    ((rcnet_engine_runIteration frameNsRaw ls).simBacklogWarned = false →
      (rcnet_engine_runIteration frameNsRaw ls).loopState.accSimNs
        < ls.engine.simTickDurationNs) ∧
    ((rcnet_engine_runIteration frameNsRaw ls).netBacklogWarned = true →
      (rcnet_engine_runIteration frameNsRaw ls).loopState.accNetNs
        = ls.engine.netTickDurationNs) ∧
    ((rcnet_engine_runIteration frameNsRaw ls).netBacklogWarned = false →
      (rcnet_engine_runIteration frameNsRaw ls).loopState.accNetNs
        < ls.engine.netTickDurationNs) := by
  have h := runIterationCore (W := W)
    { ls with
      accSimNs := ls.accSimNs +
        (if frameNsRaw > kMaxFrameClampNs then kMaxFrameClampNs else frameNsRaw)
      accNetNs := ls.accNetNs +
        (if frameNsRaw > kMaxFrameClampNs then kMaxFrameClampNs else frameNsRaw) }
  exact ⟨rfl, h.1, h.2.1, h.2.2.1, h.2.2.2.1, h.2.2.2.2.1, h.2.2.2.2.2.1,
    h.2.2.2.2.2.2.1, h.2.2.2.2.2.2.2⟩

/-- Witness for C3 at a concrete 250 ms stall with the default 60 Hz / 20 Hz
periods: exactly 5 sim catch-up ticks fire and the sim accumulator is capped
to one period (16666666 ns) with the warning logged, while the net
accumulator drains exactly and ends below one period. -/
theorem engine_iteration_bounded_catchup_witness :
    (rcnet_engine_runIteration 250000000
      { engine :=
          { callbacksServerEngine := initialCallbacks PUnit
            simTickRateHz := 60
            netTickRateHz := 20
            simTickDurationNs := 16666666
            netTickDurationNs := 50000000
            simFixedDt := 0
            simTickId := 0
            netTickId := 0
            world := PUnit.unit }
        accSimNs := 0
        accNetNs := 0 }).loopState.accSimNs = 16666666 ∧
    (rcnet_engine_runIteration 250000000
      { engine :=
          { callbacksServerEngine := initialCallbacks PUnit
            simTickRateHz := 60
            netTickRateHz := 20
            simTickDurationNs := 16666666
            netTickDurationNs := 50000000
            simFixedDt := 0
            simTickId := 0
            netTickId := 0
            world := PUnit.unit }
        accSimNs := 0
        accNetNs := 0 }).loopState.accNetNs < 50000000 := by
  have h := engine_iteration_bounded_catchup 250000000
    { engine :=
        { callbacksServerEngine := initialCallbacks PUnit
          simTickRateHz := 60
          netTickRateHz := 20
          simTickDurationNs := 16666666
          netTickDurationNs := 50000000
          simFixedDt := 0
          simTickId := 0
          netTickId := 0
          world := PUnit.unit }
      accSimNs := 0
      accNetNs := 0 }
  exact ⟨h.2.2.2.2.2.1 (by decide), h.2.2.2.2.2.2.2.2 (by decide)⟩

/-! ## Sleep computation: claim C4 -/

/-- The sleep ladder in terms of truncated subtraction: zero only when both
remainders are zero; when exactly one remainder is zero, the other; when
both are positive, their minimum. -/
theorem computeSleepNs_spec (ls : EngineLoopState W) :
    (ls.engine.simTickDurationNs - ls.accSimNs = 0 ∧
      ls.engine.netTickDurationNs - ls.accNetNs = 0 →
      computeSleepNs ls = 0) ∧
    (ls.engine.simTickDurationNs - ls.accSimNs = 0 ∧
      0 < ls.engine.netTickDurationNs - ls.accNetNs →
      computeSleepNs ls = ls.engine.netTickDurationNs - ls.accNetNs) ∧
    (0 < ls.engine.simTickDurationNs - ls.accSimNs ∧
      ls.engine.netTickDurationNs - ls.accNetNs = 0 →
      computeSleepNs ls = ls.engine.simTickDurationNs - ls.accSimNs) ∧
    (0 < ls.engine.simTickDurationNs - ls.accSimNs ∧
      0 < ls.engine.netTickDurationNs - ls.accNetNs →
      computeSleepNs ls =
        min (ls.engine.simTickDurationNs - ls.accSimNs)
          (ls.engine.netTickDurationNs - ls.accNetNs)) := by
  have hsim : (if ls.accSimNs < ls.engine.simTickDurationNs then
      ls.engine.simTickDurationNs - ls.accSimNs else 0)
      = ls.engine.simTickDurationNs - ls.accSimNs := by
    by_cases h : ls.accSimNs < ls.engine.simTickDurationNs
    · simp [h]
    · simp [h]; omega
  have hnet : (if ls.accNetNs < ls.engine.netTickDurationNs then
      ls.engine.netTickDurationNs - ls.accNetNs else 0)
      = ls.engine.netTickDurationNs - ls.accNetNs := by
    by_cases h : ls.accNetNs < ls.engine.netTickDurationNs
    · simp [h]
    · simp [h]; omega
  unfold computeSleepNs
  rw [hsim, hnet]
  refine ⟨?_, ?_, ?_, ?_⟩
  · rintro ⟨h1, h2⟩
    simp [h1, h2]
  · rintro ⟨h1, h2⟩
    simp [h1, Nat.pos_iff_ne_zero.mp h2]
  · rintro ⟨h1, h2⟩
    simp [h2, Nat.pos_iff_ne_zero.mp h1]
  · rintro ⟨h1, h2⟩
    have key : ∀ a b : ℕ, (if a < b then a else b) = min a b := by
      intro a b
      by_cases h : a < b
      · rw [if_pos h, Nat.min_eq_left (Nat.le_of_lt h)]
      · rw [if_neg h, Nat.min_eq_right (Nat.le_of_not_lt h)]
    simp [Nat.pos_iff_ne_zero.mp h1, Nat.pos_iff_ne_zero.mp h2, key]

set_option maxHeartbeats 1000000 in
/-- C4 (amended).  At the end of each engine-loop iteration the sleep is
the minimum of the two remaining times when both are positive; when exactly
one of the two ticks is already due (its remaining time is zero) the loop
still sleeps, for the other tick's full remaining time; the sleep is
skipped only when both ticks are due simultaneously. -/
theorem engine_iteration_sleep_ladder (frameNsRaw : ℕ) (ls : EngineLoopState W) :
    ((rcnet_engine_runIteration frameNsRaw ls).loopState.engine.simTickDurationNs
        - (rcnet_engine_runIteration frameNsRaw ls).loopState.accSimNs = 0 ∧
      (rcnet_engine_runIteration frameNsRaw ls).loopState.engine.netTickDurationNs
        - (rcnet_engine_runIteration frameNsRaw ls).loopState.accNetNs = 0 →
      (rcnet_engine_runIteration frameNsRaw ls).sleepNs = 0) ∧
    ((rcnet_engine_runIteration frameNsRaw ls).loopState.engine.simTickDurationNs
        - (rcnet_engine_runIteration frameNsRaw ls).loopState.accSimNs = 0 ∧
      0 < (rcnet_engine_runIteration frameNsRaw ls).loopState.engine.netTickDurationNs
        - (rcnet_engine_runIteration frameNsRaw ls).loopState.accNetNs →
      (rcnet_engine_runIteration frameNsRaw ls).sleepNs =
        (rcnet_engine_runIteration frameNsRaw ls).loopState.engine.netTickDurationNs
          - (rcnet_engine_runIteration frameNsRaw ls).loopState.accNetNs) ∧
    (0 < (rcnet_engine_runIteration frameNsRaw ls).loopState.engine.simTickDurationNs
        - (rcnet_engine_runIteration frameNsRaw ls).loopState.accSimNs ∧
      (rcnet_engine_runIteration frameNsRaw ls).loopState.engine.netTickDurationNs
        - (rcnet_engine_runIteration frameNsRaw ls).loopState.accNetNs = 0 →
      (rcnet_engine_runIteration frameNsRaw ls).sleepNs =
        (rcnet_engine_runIteration frameNsRaw ls).loopState.engine.simTickDurationNs
          - (rcnet_engine_runIteration frameNsRaw ls).loopState.accSimNs) ∧
    (0 < (rcnet_engine_runIteration frameNsRaw ls).loopState.engine.simTickDurationNs
        - (rcnet_engine_runIteration frameNsRaw ls).loopState.accSimNs ∧
      0 < (rcnet_engine_runIteration frameNsRaw ls).loopState.engine.netTickDurationNs
        - (rcnet_engine_runIteration frameNsRaw ls).loopState.accNetNs →
      (rcnet_engine_runIteration frameNsRaw ls).sleepNs =
        min ((rcnet_engine_runIteration frameNsRaw ls).loopState.engine.simTickDurationNs
            - (rcnet_engine_runIteration frameNsRaw ls).loopState.accSimNs)
          ((rcnet_engine_runIteration frameNsRaw ls).loopState.engine.netTickDurationNs
            - (rcnet_engine_runIteration frameNsRaw ls).loopState.accNetNs)) := by
  exact computeSleepNs_spec (rcnet_engine_runIteration frameNsRaw ls).loopState

/-- Witness for C4's amended ladder at the concrete 250 ms stall: the sim
tick is due (`remaining = 0`) while 50 ms remain to the net tick, and the
iteration sleeps those 50 ms. -/
theorem engine_iteration_sleep_ladder_witness :
    (rcnet_engine_runIteration 250000000
      { engine :=
          { callbacksServerEngine := initialCallbacks PUnit
            simTickRateHz := 60
            netTickRateHz := 20
            simTickDurationNs := 16666666
            netTickDurationNs := 50000000
            simFixedDt := 0
            simTickId := 0
            netTickId := 0
            world := PUnit.unit }
        accSimNs := 0
        accNetNs := 0 }).sleepNs = 50000000 := by
  have h := (engine_iteration_sleep_ladder 250000000
    { engine :=
        { callbacksServerEngine := initialCallbacks PUnit
          simTickRateHz := 60
          netTickRateHz := 20
          simTickDurationNs := 16666666
          netTickDurationNs := 50000000
          simFixedDt := 0
          simTickId := 0
          netTickId := 0
          world := PUnit.unit }
      accSimNs := 0
      accNetNs := 0 }).2.1 ⟨by decide, by decide⟩
  exact h.trans (by decide)

/-- Counterexample to C4 as stated: after a 250 ms stall at the default
rates, the sim accumulator is capped to exactly one period, so the next sim
tick is already due (`sim remaining = 0`, hence the claimed
`min(sim_period - acc_sim, net_period - acc_net)` is `0` and the claimed
sleep would be skipped), yet the iteration sleeps the full 50000000 ns to
the next net tick. -/
theorem engine_iteration_sleep_not_min :
    ((rcnet_engine_runIteration 250000000
      { engine :=
          { callbacksServerEngine := initialCallbacks PUnit
            simTickRateHz := 60
            netTickRateHz := 20
            simTickDurationNs := 16666666
            netTickDurationNs := 50000000
            simFixedDt := 0
            simTickId := 0
            netTickId := 0
            world := PUnit.unit }
        accSimNs := 0
        accNetNs := 0 }).loopState.engine.simTickDurationNs
      - (rcnet_engine_runIteration 250000000
      { engine :=
          { callbacksServerEngine := initialCallbacks PUnit
            simTickRateHz := 60
            netTickRateHz := 20
            simTickDurationNs := 16666666
            netTickDurationNs := 50000000
            simFixedDt := 0
            simTickId := 0
            netTickId := 0
            world := PUnit.unit }
        accSimNs := 0
        accNetNs := 0 }).loopState.accSimNs = 0) ∧
    (rcnet_engine_runIteration 250000000
      { engine :=
          { callbacksServerEngine := initialCallbacks PUnit
            simTickRateHz := 60
            netTickRateHz := 20
            simTickDurationNs := 16666666
            netTickDurationNs := 50000000
            simFixedDt := 0
            simTickId := 0
            netTickId := 0
            world := PUnit.unit }
        accSimNs := 0
        accNetNs := 0 }).sleepNs ≠ 0 := by
  constructor
  · decide
  · decide

/-! ## Input codec: claims C5 and C6 -/

/-- A successful parse of `some root` yields exactly the record the source
builds field by field. -/
theorem ParseJsonClientInput_cJSON_some_eq (root : JObj) (cid : ℕ)
    (input : RCNET_ClientInput)
    (h : ParseJsonClientInput_cJSON (some root) cid = some input) :
    input =
      { clientId := cid
        clientTickId :=
          castU32 (valuedouble (cJSON_GetObjectItemCaseSensitive root "clientTick"))
        clientInputSeq :=
          castU32 (valuedouble (cJSON_GetObjectItemCaseSensitive root "seq"))
        buttonsMask :=
          match cJSON_GetObjectItemCaseSensitive root "buttons" with
          | some (JVal.jnum v) => castU32 v
          | _ => 0
        axisX :=
          match cJSON_GetObjectItemCaseSensitive root "ax" with
          | some (JVal.jnum v) => ClampFloat v (FVal.fin (-1)) (FVal.fin 1)
          | _ => FVal.fin 0
        axisY :=
          match cJSON_GetObjectItemCaseSensitive root "ay" with
          | some (JVal.jnum v) => ClampFloat v (FVal.fin (-1)) (FVal.fin 1)
          | _ => FVal.fin 0 } := by
  by_cases hc : (cJSON_IsNumber (cJSON_GetObjectItemCaseSensitive root "clientTick") &&
      cJSON_IsNumber (cJSON_GetObjectItemCaseSensitive root "seq")) = true
  · simp only [ParseJsonClientInput_cJSON, hc, if_true, Option.some.injEq] at h
    exact h.symm
  · simp [ParseJsonClientInput_cJSON, hc] at h

/-- Whether a JSON value can occur in a `cJSON_Parse` result.  cJSON
(v1.7.19, the pinned codec) parses numbers by copying only digit, sign,
exponent and dot characters into the buffer it hands to `strtod`, and its
value dispatcher accepts no `NaN` literal (not valid JSON), so a parsed
number item is never NaN.  Overlarge literals such as `1e999` come back as
infinities, which behave under `ClampFloat`'s comparisons like any modelled
finite value beyond the bound. -/
def JVal.fromStrictJson : JVal → Bool
  | JVal.jnum FVal.nan => false
  | _ => true

/-- A parsed object that `cJSON_Parse` can actually return: none of its
field values is a NaN number item. -/
def JObj.fromStrictJson (root : JObj) : Bool :=
  root.all fun kv => kv.2.fromStrictJson

/-- Field lookup stays inside the `cJSON_Parse`-reachable values. -/
theorem cJSON_GetObjectItemCaseSensitive_fromStrictJson (root : JObj)
    (s : String) (v : JVal)
    (hall : JObj.fromStrictJson root = true)
    (h : cJSON_GetObjectItemCaseSensitive root s = some v) :
    JVal.fromStrictJson v = true := by
  unfold cJSON_GetObjectItemCaseSensitive at h
  cases hf : root.find? (fun kv => kv.1 == s) with
  | none => rw [hf] at h; exact absurd h (by simp)
  | some kv =>
    rw [hf] at h
    have hmem := List.mem_of_find?_eq_some hf
    have hkv := (List.all_eq_true.mp hall) kv hmem
    have hv : kv.2 = v := by
      injection h
    rw [← hv]
    exact hkv

/-- `ClampFloat` sends a finite value above the upper bound to the bound. -/
theorem ClampFloat_of_gt_one (q : ℚ) (hq : 1 < q) :
    ClampFloat (FVal.fin q) (FVal.fin (-1)) (FVal.fin 1) = FVal.fin 1 := by
  have h1 : ¬ (q < -1) := by linarith
  simp [ClampFloat, FVal.lt, h1, hq]

/-- `ClampFloat` sends a finite value below the lower bound to the bound. -/
theorem ClampFloat_of_lt_neg_one (q : ℚ) (hq : q < -1) :
    ClampFloat (FVal.fin q) (FVal.fin (-1)) (FVal.fin 1) = FVal.fin (-1) := by
  simp [ClampFloat, FVal.lt, hq]

/-- `ClampFloat` of any finite value lands inside `[-1, 1]`. -/
theorem ClampFloat_mem_Icc (q : ℚ) :
    ∃ r : ℚ, ClampFloat (FVal.fin q) (FVal.fin (-1)) (FVal.fin 1) = FVal.fin r ∧
      -1 ≤ r ∧ r ≤ 1 := by
  by_cases h1 : q < -1
  · exact ⟨-1, by simp [ClampFloat, FVal.lt, h1], by norm_num, by norm_num⟩
  · by_cases h2 : 1 < q
    · have h3 : ¬ (q < -1) := h1
      exact ⟨1, by simp [ClampFloat, FVal.lt, h3, h2], by norm_num, by norm_num⟩
    · exact ⟨q, by simp [ClampFloat, FVal.lt, h1, h2], by linarith [not_lt.mp h1],
        by linarith [not_lt.mp h2]⟩

/-- C5.  For every successfully parsed input coming from bytes that
`cJSON_Parse` can actually accept (`JObj.fromStrictJson`, which rules out
NaN number items — the strict-JSON number parser cannot produce one, making
the claim's NaN clause vacuous): the stored axis value of a numeric
`ax`/`ay` field is `ClampFloat(value, -1, 1)`, which coerces any value
above 1 to 1 (e.g. `ax = 3.0` yields `axisX = 1.0`) and any value below -1
to -1; and both stored axes always lie within `[-1, 1]`. -/
theorem parse_axis_clamped_in_range (payload : Option JObj) (cid : ℕ)
    (root : JObj) (input : RCNET_ClientInput)
    (hp : payload = some root)
    (hjson : JObj.fromStrictJson root = true)
    (hs : ParseJsonClientInput_cJSON payload cid = some input) :
    (∀ s, cJSON_GetObjectItemCaseSensitive root s ≠ some (JVal.jnum FVal.nan)) ∧
    (∀ q : ℚ,
      cJSON_GetObjectItemCaseSensitive root "ax" = some (JVal.jnum (FVal.fin q)) →
      input.axisX = ClampFloat (FVal.fin q) (FVal.fin (-1)) (FVal.fin 1) ∧
      (1 < q → input.axisX = FVal.fin 1) ∧
      (q < -1 → input.axisX = FVal.fin (-1))) ∧
    (∀ q : ℚ,
      cJSON_GetObjectItemCaseSensitive root "ay" = some (JVal.jnum (FVal.fin q)) →
      input.axisY = ClampFloat (FVal.fin q) (FVal.fin (-1)) (FVal.fin 1) ∧
      (1 < q → input.axisY = FVal.fin 1) ∧
      (q < -1 → input.axisY = FVal.fin (-1))) ∧
    (∃ r : ℚ, input.axisX = FVal.fin r ∧ -1 ≤ r ∧ r ≤ 1) ∧
    (∃ r : ℚ, input.axisY = FVal.fin r ∧ -1 ≤ r ∧ r ≤ 1) := by
  subst hp
  have he := ParseJsonClientInput_cJSON_some_eq root cid input hs
  have hnonan : ∀ s, cJSON_GetObjectItemCaseSensitive root s
      ≠ some (JVal.jnum FVal.nan) := by
    intro s hcontra
    have := cJSON_GetObjectItemCaseSensitive_fromStrictJson root s
      (JVal.jnum FVal.nan) hjson hcontra
    simp [JVal.fromStrictJson] at this
  refine ⟨hnonan, ?_, ?_, ?_, ?_⟩
  · intro q hq
    have hval : input.axisX = ClampFloat (FVal.fin q) (FVal.fin (-1)) (FVal.fin 1) := by
      rw [he]
      simp [hq]
    exact ⟨hval, fun h1 => hval.trans (ClampFloat_of_gt_one q h1),
      fun h1 => hval.trans (ClampFloat_of_lt_neg_one q h1)⟩
  · intro q hq
    have hval : input.axisY = ClampFloat (FVal.fin q) (FVal.fin (-1)) (FVal.fin 1) := by
      rw [he]
      simp [hq]
    exact ⟨hval, fun h1 => hval.trans (ClampFloat_of_gt_one q h1),
      fun h1 => hval.trans (ClampFloat_of_lt_neg_one q h1)⟩
  · cases hax : cJSON_GetObjectItemCaseSensitive root "ax" with
    | none =>
      refine ⟨0, ?_, by norm_num, by norm_num⟩
      rw [he]
      simp [hax]
    | some jv =>
      cases jv with
      | jnum v =>
        cases v with
        | nan => exact absurd hax (hnonan "ax")
        | fin q =>
          obtain ⟨r, hr, hr1, hr2⟩ := ClampFloat_mem_Icc q
          refine ⟨r, ?_, hr1, hr2⟩
          rw [he]
          simp [hax, hr]
      | jother =>
        refine ⟨0, ?_, by norm_num, by norm_num⟩
        rw [he]
        simp [hax]
  · cases hay : cJSON_GetObjectItemCaseSensitive root "ay" with
    | none =>
      refine ⟨0, ?_, by norm_num, by norm_num⟩
      rw [he]
      simp [hay]
    | some jv =>
      cases jv with
      | jnum v =>
        cases v with
        | nan => exact absurd hay (hnonan "ay")
        | fin q =>
          obtain ⟨r, hr, hr1, hr2⟩ := ClampFloat_mem_Icc q
          refine ⟨r, ?_, hr1, hr2⟩
          rw [he]
          simp [hay, hr]
      | jother =>
        refine ⟨0, ?_, by norm_num, by norm_num⟩
        rw [he]
        simp [hay]

/-- Witness for C5 at the spec's example: `{"clientTick": 7, "seq": 1,
"ax": 3}` — strict JSON, no NaN — parses and stores
`axisX = ClampFloat(3, -1, 1) = 1.0`. -/
theorem parse_axis_clamped_in_range_witness :
    ({ clientId := 0, clientTickId := 7, clientInputSeq := 1, buttonsMask := 0,
       axisX := FVal.fin 1, axisY := FVal.fin 0 } : RCNET_ClientInput).axisX
      = ClampFloat (FVal.fin 3) (FVal.fin (-1)) (FVal.fin 1) ∧
    ({ clientId := 0, clientTickId := 7, clientInputSeq := 1, buttonsMask := 0,
       axisX := FVal.fin 1, axisY := FVal.fin 0 } : RCNET_ClientInput).axisX
      = FVal.fin 1 := by
  have h := parse_axis_clamped_in_range
    (some [("clientTick", JVal.jnum (FVal.fin 7)), ("seq", JVal.jnum (FVal.fin 1)),
      ("ax", JVal.jnum (FVal.fin 3))]) 0
    [("clientTick", JVal.jnum (FVal.fin 7)), ("seq", JVal.jnum (FVal.fin 1)),
      ("ax", JVal.jnum (FVal.fin 3))]
    { clientId := 0, clientTickId := 7, clientInputSeq := 1, buttonsMask := 0,
      axisX := FVal.fin 1, axisY := FVal.fin 0 }
    rfl (by decide) (by decide)
  have h2 := h.2.1 3 rfl
  exact ⟨h2.1, h2.2.1 (by norm_num)⟩

/-- C6 (amended).  The parser fails exactly when the payload is not valid
JSON or a required field (`clientTick`, `seq`) is missing or not a number —
negativity is *not* checked.  On success, absent (or non-numeric) optional
fields `buttons`, `ax`, `ay` default to 0, and numeric `ax`/`ay` are stored
through `ClampFloat(·, -1, 1)`. -/
theorem parse_schema_check (payload : Option JObj) (cid : ℕ) :
    (ParseJsonClientInput_cJSON payload cid = none ↔
      payload = none ∨
        ∃ root, payload = some root ∧
          (cJSON_IsNumber (cJSON_GetObjectItemCaseSensitive root "clientTick") = false ∨
           cJSON_IsNumber (cJSON_GetObjectItemCaseSensitive root "seq") = false)) ∧
    (∀ root input, payload = some root →
      ParseJsonClientInput_cJSON payload cid = some input →
      (cJSON_IsNumber (cJSON_GetObjectItemCaseSensitive root "buttons") = false →
        input.buttonsMask = 0) ∧
      (cJSON_IsNumber (cJSON_GetObjectItemCaseSensitive root "ax") = false →
        input.axisX = FVal.fin 0) ∧
      (cJSON_IsNumber (cJSON_GetObjectItemCaseSensitive root "ay") = false →
        input.axisY = FVal.fin 0) ∧
      (∀ v, cJSON_GetObjectItemCaseSensitive root "ax" = some (JVal.jnum v) →
        input.axisX = ClampFloat v (FVal.fin (-1)) (FVal.fin 1)) ∧
      (∀ v, cJSON_GetObjectItemCaseSensitive root "ay" = some (JVal.jnum v) →
        input.axisY = ClampFloat v (FVal.fin (-1)) (FVal.fin 1))) := by
  constructor
  · cases payload with
    | none => simp [ParseJsonClientInput_cJSON]
    | some root =>
      by_cases hc : (cJSON_IsNumber (cJSON_GetObjectItemCaseSensitive root "clientTick") &&
          cJSON_IsNumber (cJSON_GetObjectItemCaseSensitive root "seq")) = true
      · simp only [ParseJsonClientInput_cJSON, hc, if_true]
        simp only [Bool.and_eq_true] at hc
        simp [hc.1, hc.2]
      · have hnone : ParseJsonClientInput_cJSON (some root) cid = none := by
          simp [ParseJsonClientInput_cJSON, hc]
        rw [hnone]
        constructor
        · intro _
          right
          refine ⟨root, rfl, ?_⟩
          by_cases hA : cJSON_IsNumber (cJSON_GetObjectItemCaseSensitive root "clientTick") = true
          · by_cases hB : cJSON_IsNumber (cJSON_GetObjectItemCaseSensitive root "seq") = true
            · exact absurd (by rw [hA, hB]; rfl) hc
            · right
              simp only [Bool.not_eq_true] at hB
              exact hB
          · left
            simp only [Bool.not_eq_true] at hA
            exact hA
        · intro _
          rfl
  · intro root input hp hs
    subst hp
    have he := ParseJsonClientInput_cJSON_some_eq root cid input hs
    refine ⟨?_, ?_, ?_, ?_, ?_⟩
    · intro hb
      rw [he]
      cases hbt : cJSON_GetObjectItemCaseSensitive root "buttons" with
      | none => simp [hbt]
      | some jv =>
        cases jv with
        | jnum v => rw [hbt] at hb; simp [cJSON_IsNumber] at hb
        | jother => simp [hbt]
    · intro hb
      rw [he]
      cases hbt : cJSON_GetObjectItemCaseSensitive root "ax" with
      | none => simp [hbt]
      | some jv =>
        cases jv with
        | jnum v => rw [hbt] at hb; simp [cJSON_IsNumber] at hb
        | jother => simp [hbt]
    · intro hb
      rw [he]
      cases hbt : cJSON_GetObjectItemCaseSensitive root "ay" with
      | none => simp [hbt]
      | some jv =>
        cases jv with
        | jnum v => rw [hbt] at hb; simp [cJSON_IsNumber] at hb
        | jother => simp [hbt]
    · intro v hv
      rw [he]
      simp [hv]
    · intro v hv
      rw [he]
      simp [hv]

/-- Witness for C6 at a concrete success: `{"clientTick": 2, "seq": 5,
"ax": 3}` parses; the absent `ay` defaults to 0 and the numeric `ax` is
stored through the clamp. -/
theorem parse_schema_check_witness :
    ({ clientId := 7, clientTickId := 2, clientInputSeq := 5, buttonsMask := 0,
       axisX := FVal.fin 1, axisY := FVal.fin 0 } : RCNET_ClientInput).axisY
      = FVal.fin 0 ∧
    ({ clientId := 7, clientTickId := 2, clientInputSeq := 5, buttonsMask := 0,
       axisX := FVal.fin 1, axisY := FVal.fin 0 } : RCNET_ClientInput).axisX
      = ClampFloat (FVal.fin 3) (FVal.fin (-1)) (FVal.fin 1) := by
  have h := (parse_schema_check
    (some [("clientTick", JVal.jnum (FVal.fin 2)), ("seq", JVal.jnum (FVal.fin 5)),
      ("ax", JVal.jnum (FVal.fin 3))]) 7).2
    [("clientTick", JVal.jnum (FVal.fin 2)), ("seq", JVal.jnum (FVal.fin 5)),
      ("ax", JVal.jnum (FVal.fin 3))]
    { clientId := 7, clientTickId := 2, clientInputSeq := 5, buttonsMask := 0,
      axisX := FVal.fin 1, axisY := FVal.fin 0 }
    rfl (by decide)
  exact ⟨h.2.2.1 (by decide), h.2.2.2.1 (FVal.fin 3) rfl⟩

/-- Counterexample to C6 as stated: `{"clientTick": -5, "seq": 3}` carries a
*negative* required field, which the claim says must yield the schema-error
result — but the parser only checks `cJSON_IsNumber` and succeeds. -/
theorem parse_negative_required_field_accepted :
    (ParseJsonClientInput_cJSON
      (some [("clientTick", JVal.jnum (FVal.fin (-5))), ("seq", JVal.jnum (FVal.fin 3))])
      0).isSome = true ∧
    (-5 : ℚ) < 0 := by
  refine ⟨by decide, by norm_num⟩

/-! ## Late inputs: claim C7 -/

/-- After scheduling, the slot of the target tick is stamped with the
target tick. -/
theorem scheduleInputIntoRing_stamp (ring : ScheduledInputsRing) (t : ℕ)
    (x : RCNET_ClientInput) :
    ((scheduleInputIntoRing ring t x)
      (GetRingIndexForServerTick t)).serverTickIdForThisSlot = t := by
  by_cases hc : (ring (GetRingIndexForServerTick t)).serverTickIdForThisSlot = t
  · simp [scheduleInputIntoRing, hc]
  · simp [scheduleInputIntoRing, hc]

/-- Scheduling touches no slot other than the target tick's. -/
theorem scheduleInputIntoRing_other (ring : ScheduledInputsRing) (t : ℕ)
    (x : RCNET_ClientInput) (i : Fin kScheduledInputsRingBufferSize)
    (h : i ≠ GetRingIndexForServerTick t) :
    (scheduleInputIntoRing ring t x) i = ring i := by
  simp [scheduleInputIntoRing, Function.update_noteq h]

/-- C7.  A late input — one whose target tick is earlier than the
simulation tick at which it is scheduled into the ring — is never applied:
the tick that schedules it applies no input at all (the stamp check leaves
the current tick's slot stale), `last_applied` is unchanged, while
`last_recv` was still updated when the input was received (for an in-range
client id). -/
theorem late_input_dropped (st : ServerSimState)
    (q : RCNET_QueuedInputForSimulation)
    (hq : st.gIncomingInputsQueue = [q])
    (hlate : q.targetServerSimTickId < st.gCurrentServerSimulationTickId + 1)
    (hslot : (st.gScheduledInputsRing
        (GetRingIndexForServerTick
          (st.gCurrentServerSimulationTickId + 1))).serverTickIdForThisSlot
      ≠ st.gCurrentServerSimulationTickId + 1) :
    (rcnet_simulation_update st).2 = [] ∧
    (rcnet_simulation_update st).1.gLastAppliedInputSeqByClientId
      = st.gLastAppliedInputSeqByClientId ∧
    (∀ lastReceived : ℕ → ℕ, IsClientIdInRange q.input.clientId = true →
      recordReceivedSeq lastReceived q.input q.input.clientId
        = q.input.clientInputSeq) := by
  have hstamp :
      ((scheduleInputIntoRing st.gScheduledInputsRing q.targetServerSimTickId q.input)
        (GetRingIndexForServerTick
          (st.gCurrentServerSimulationTickId + 1))).serverTickIdForThisSlot
        ≠ st.gCurrentServerSimulationTickId + 1 := by
    by_cases hidx : GetRingIndexForServerTick q.targetServerSimTickId
        = GetRingIndexForServerTick (st.gCurrentServerSimulationTickId + 1)
    · rw [← hidx, scheduleInputIntoRing_stamp]
      omega
    · rw [scheduleInputIntoRing_other _ _ _ _ (Ne.symm hidx)]
      exact hslot
  have htake :
      takeInputsForTick
        (scheduleInputIntoRing st.gScheduledInputsRing q.targetServerSimTickId q.input)
        (st.gCurrentServerSimulationTickId + 1)
        = ([], scheduleInputIntoRing st.gScheduledInputsRing
            q.targetServerSimTickId q.input) := by
    simp [takeInputsForTick, hstamp]
  refine ⟨?_, ?_, ?_⟩
  · simp only [rcnet_simulation_update, hq, List.foldl_cons, List.foldl_nil, htake]
  · simp only [rcnet_simulation_update, hq, List.foldl_cons, List.foldl_nil, htake,
      List.foldl_nil]
  · intro lastReceived hr
    rw [recordReceivedSeq, if_pos hr]
    exact Function.update_same _ _ _

/-- Witness for C7: an input manufactured with `target = current - 1`
(target 10 scheduled while the tick advances to 11) is dropped — the tick
applies nothing and `last_applied` is untouched. -/
theorem late_input_dropped_witness :
    (rcnet_simulation_update
      { gCurrentServerSimulationTickId := 10
        gIncomingInputsQueue :=
          [{ targetServerSimTickId := 10
             input := { clientId := 0, clientTickId := 0, clientInputSeq := 1,
                        buttonsMask := 0, axisX := FVal.fin 0, axisY := FVal.fin 0 } }]
        gScheduledInputsRing := initialScheduledInputsRing
        gLastAppliedInputSeqByClientId := (fun _ => 0) }).2 = [] ∧
    (rcnet_simulation_update
      { gCurrentServerSimulationTickId := 10
        gIncomingInputsQueue :=
          [{ targetServerSimTickId := 10
             input := { clientId := 0, clientTickId := 0, clientInputSeq := 1,
                        buttonsMask := 0, axisX := FVal.fin 0, axisY := FVal.fin 0 } }]
        gScheduledInputsRing := initialScheduledInputsRing
        gLastAppliedInputSeqByClientId := (fun _ => 0) }).1.gLastAppliedInputSeqByClientId 0
      = 0 := by
  have h := late_input_dropped
    { gCurrentServerSimulationTickId := 10
      gIncomingInputsQueue :=
        [{ targetServerSimTickId := 10
           input := { clientId := 0, clientTickId := 0, clientInputSeq := 1,
                      buttonsMask := 0, axisX := FVal.fin 0, axisY := FVal.fin 0 } }]
      gScheduledInputsRing := initialScheduledInputsRing
      gLastAppliedInputSeqByClientId := (fun _ => 0) }
    { targetServerSimTickId := 10
      input := { clientId := 0, clientTickId := 0, clientInputSeq := 1,
                 buttonsMask := 0, axisX := FVal.fin 0, axisY := FVal.fin 0 } }
    rfl (by decide) (by decide)
  exact ⟨h.1, by rw [h.2.1]⟩

/-! ## Applied-ack semantics: claim C8 -/

/-- The seq of the last input for client `c` in an apply list (scanning
from the right), if any. -/
def lastSeqFor (c : ℕ) : List RCNET_ClientInput → Option ℕ
  | [] => none
  | x :: xs =>
    match lastSeqFor c xs with
    | some s => some s
    | none => if x.clientId = c then some x.clientInputSeq else none

/-- The apply loop's ack stores are last-write-wins: the final cell value
for an in-range client is the seq of the last applied input for that
client, or the previous value when none was applied. -/
theorem foldl_recordAppliedSeq (l : List RCNET_ClientInput) (f : ℕ → ℕ) (c : ℕ)
    (hc : IsClientIdInRange c = true) :
    (l.foldl recordAppliedSeq f) c = (lastSeqFor c l).getD (f c) := by
  induction l generalizing f with
  | nil => rfl
  | cons x xs ih =>
    rw [List.foldl_cons, ih]
    cases hxs : lastSeqFor c xs with
    | some s => simp [lastSeqFor, hxs]
    | none =>
      by_cases hx : x.clientId = c
      · have hxr : IsClientIdInRange x.clientId = true := by rw [hx]; exact hc
        have h1 : recordAppliedSeq f x c = x.clientInputSeq := by
          rw [recordAppliedSeq, if_pos hxr, hx]
          exact Function.update_same _ _ _
        simp [lastSeqFor, hxs, hx, h1]
      · have : recordAppliedSeq f x c = f c := by
          unfold recordAppliedSeq
          by_cases hr : IsClientIdInRange x.clientId = true
          · rw [if_pos hr]
            exact Function.update_noteq (fun h => hx h.symm) _ _
          · rw [if_neg hr]
        simp [lastSeqFor, hxs, hx, this]

/-- C8 (amended).  For every tick, after the apply phase completes,
`last_applied[c]` (for an in-range client `c`) equals the sequence number
of the *last* input applied for `c` in that tick — the store is a plain
overwrite, not a maximum — and is unchanged when no input for `c` was
applied.  In particular `last_applied[c] ≥ seq` holds for the last applied
input of each client (hence whenever at most one input per client is
applied in the tick), but not in general for every applied input. -/
theorem applied_seq_last_write_wins (st : ServerSimState) (c : ℕ)
    (hc : IsClientIdInRange c = true) :
    (∀ s, lastSeqFor c (rcnet_simulation_update st).2 = some s →
      (rcnet_simulation_update st).1.gLastAppliedInputSeqByClientId c = s ∧
        s ≤ (rcnet_simulation_update st).1.gLastAppliedInputSeqByClientId c) ∧
    (lastSeqFor c (rcnet_simulation_update st).2 = none →
      (rcnet_simulation_update st).1.gLastAppliedInputSeqByClientId c
        = st.gLastAppliedInputSeqByClientId c) := by
  have hrfl : (rcnet_simulation_update st).1.gLastAppliedInputSeqByClientId
      = (rcnet_simulation_update st).2.foldl recordAppliedSeq
          st.gLastAppliedInputSeqByClientId := rfl
  have key := foldl_recordAppliedSeq (rcnet_simulation_update st).2
    st.gLastAppliedInputSeqByClientId c hc
  constructor
  · intro s hs
    rw [hrfl, key, hs]
    exact ⟨rfl, Nat.le_refl _⟩
  · intro hs
    rw [hrfl, key, hs]
    rfl

/-- Counterexample to C8 as stated: a tick whose live slot holds two inputs
for client 0 with seqs 3 then 2 applies both, and after the apply phase
`last_applied[0] = 2`, strictly below the applied seq 3. -/
theorem applied_seq_not_monotone :
    (rcnet_simulation_update
      { gCurrentServerSimulationTickId := 0
        gIncomingInputsQueue := []
        gScheduledInputsRing :=
          Function.update initialScheduledInputsRing (GetRingIndexForServerTick 1)
            { serverTickIdForThisSlot := 1
              inputsToApply :=
                [{ clientId := 0, clientTickId := 0, clientInputSeq := 3,
                   buttonsMask := 0, axisX := FVal.fin 0, axisY := FVal.fin 0 },
                 { clientId := 0, clientTickId := 0, clientInputSeq := 2,
                   buttonsMask := 0, axisX := FVal.fin 0, axisY := FVal.fin 0 }] }
        gLastAppliedInputSeqByClientId := (fun _ => 0) }).2 =
      [{ clientId := 0, clientTickId := 0, clientInputSeq := 3,
         buttonsMask := 0, axisX := FVal.fin 0, axisY := FVal.fin 0 },
       { clientId := 0, clientTickId := 0, clientInputSeq := 2,
         buttonsMask := 0, axisX := FVal.fin 0, axisY := FVal.fin 0 }] ∧
    (rcnet_simulation_update
      { gCurrentServerSimulationTickId := 0
        gIncomingInputsQueue := []
        gScheduledInputsRing :=
          Function.update initialScheduledInputsRing (GetRingIndexForServerTick 1)
            { serverTickIdForThisSlot := 1
              inputsToApply :=
                [{ clientId := 0, clientTickId := 0, clientInputSeq := 3,
                   buttonsMask := 0, axisX := FVal.fin 0, axisY := FVal.fin 0 },
                 { clientId := 0, clientTickId := 0, clientInputSeq := 2,
                   buttonsMask := 0, axisX := FVal.fin 0, axisY := FVal.fin 0 }] }
        gLastAppliedInputSeqByClientId := (fun _ => 0) }).1.gLastAppliedInputSeqByClientId 0
      = 2 ∧
    ¬ (3 : ℕ) ≤ 2 := by
  refine ⟨by decide, by decide, by decide⟩

/-- Witness for C8's amended last-write-wins ack at the two-inputs tick:
the final `last_applied[0]` equals the last applied seq, 2. -/
theorem applied_seq_last_write_wins_witness :
    ((rcnet_simulation_update
      { gCurrentServerSimulationTickId := 0
        gIncomingInputsQueue := []
        gScheduledInputsRing :=
          Function.update initialScheduledInputsRing (GetRingIndexForServerTick 1)
            { serverTickIdForThisSlot := 1
              inputsToApply :=
                [{ clientId := 0, clientTickId := 0, clientInputSeq := 3,
                   buttonsMask := 0, axisX := FVal.fin 0, axisY := FVal.fin 0 },
                 { clientId := 0, clientTickId := 0, clientInputSeq := 2,
                   buttonsMask := 0, axisX := FVal.fin 0, axisY := FVal.fin 0 }] }
        gLastAppliedInputSeqByClientId := (fun _ => 0) }).1.gLastAppliedInputSeqByClientId 0
      = 2) ∧
    (2 : ℕ) ≤ 2 := by
  have h := (applied_seq_last_write_wins
    { gCurrentServerSimulationTickId := 0
      gIncomingInputsQueue := []
      gScheduledInputsRing :=
        Function.update initialScheduledInputsRing (GetRingIndexForServerTick 1)
          { serverTickIdForThisSlot := 1
            inputsToApply :=
              [{ clientId := 0, clientTickId := 0, clientInputSeq := 3,
                 buttonsMask := 0, axisX := FVal.fin 0, axisY := FVal.fin 0 },
               { clientId := 0, clientTickId := 0, clientInputSeq := 2,
                 buttonsMask := 0, axisX := FVal.fin 0, axisY := FVal.fin 0 }] }
      gLastAppliedInputSeqByClientId := (fun _ => 0) } 0 (by decide)).1 2 (by decide)
  exact ⟨h.1, h.1 ▸ h.2⟩

/-! ## Out-of-range client ids: claim C9 -/

/-- C9.  For a successfully parsed input carrying `clientId ≥
kMaxServerClients`, both bounds-checked ack writers skip their store (in
the model the guard means the ack functions are returned unchanged, which
is how the source avoids any out-of-bounds array write), yet the input is
still queued with its target tick, and a simulation tick whose slot it
reaches still applies it — only the applied-ack store is skipped. -/
theorem out_of_range_client_processed (st : ReceiverState)
    (currentServerTickId : ℕ) (payload : Option JObj) (clientId : ℕ)
    (input : RCNET_ClientInput)
    (hparse : ParseJsonClientInput_cJSON payload clientId = some input)
    (hoor : kMaxServerClients ≤ clientId) :
    (enetReceiveEvent st currentServerTickId payload clientId).gLastReceivedInputSeqByClientId
      = st.gLastReceivedInputSeqByClientId ∧
    (enetReceiveEvent st currentServerTickId payload clientId).gIncomingInputsQueue
      = st.gIncomingInputsQueue ++
        [{ targetServerSimTickId := currentServerTickId + kServerInputDelayInTicks,
           input := input }] ∧
    (∀ sim : ServerSimState,
      sim.gIncomingInputsQueue =
        [{ targetServerSimTickId := sim.gCurrentServerSimulationTickId + 1,
           input := input }] →
      (sim.gScheduledInputsRing (GetRingIndexForServerTick
          (sim.gCurrentServerSimulationTickId + 1))).serverTickIdForThisSlot
        ≠ sim.gCurrentServerSimulationTickId + 1 →
      (rcnet_simulation_update sim).2 = [input] ∧
      (rcnet_simulation_update sim).1.gLastAppliedInputSeqByClientId
        = sim.gLastAppliedInputSeqByClientId) := by
  have hid := ParseJsonClientInput_cJSON_clientId_eq payload clientId input hparse
  have hrange : IsClientIdInRange input.clientId = false := by
    rw [hid]
    simp only [IsClientIdInRange, kMaxServerClients, decide_eq_false_iff_not, not_lt]
    exact hoor
  refine ⟨?_, ?_, ?_⟩
  · simp only [enetReceiveEvent, hparse]
    rw [recordReceivedSeq, hrange]
    simp
  · simp [enetReceiveEvent, hparse]
  · intro sim hqueue hslot
    have hsched := scheduleInputIntoRing_of_stale sim.gScheduledInputsRing
      (sim.gCurrentServerSimulationTickId + 1) input hslot
    have htake :
        takeInputsForTick
          (scheduleInputIntoRing sim.gScheduledInputsRing
            (sim.gCurrentServerSimulationTickId + 1) input)
          (sim.gCurrentServerSimulationTickId + 1)
          = ([input],
             Function.update
               (scheduleInputIntoRing sim.gScheduledInputsRing
                 (sim.gCurrentServerSimulationTickId + 1) input)
               (GetRingIndexForServerTick (sim.gCurrentServerSimulationTickId + 1))
               { serverTickIdForThisSlot := sim.gCurrentServerSimulationTickId + 1
                 inputsToApply := [] }) := by
      rw [hsched]
      simp [takeInputsForTick, Function.update_same]
    constructor
    · simp only [rcnet_simulation_update, hqueue, List.foldl_cons, List.foldl_nil, htake]
    · simp only [rcnet_simulation_update, hqueue, List.foldl_cons, List.foldl_nil, htake,
        List.foldl_cons, List.foldl_nil]
      rw [recordAppliedSeq, hrange]
      simp

/-- Witness for C9: peer id 64 (`= kMaxServerClients`) sends
`{"clientTick": 5, "seq": 9}` at sim tick 100; `last_recv` is untouched,
the input is queued for tick 101, and a later simulation tick applies it
while `last_applied` stays untouched. -/
theorem out_of_range_client_processed_witness :
    (enetReceiveEvent
      { gLastReceivedInputSeqByClientId := (fun _ => 0)
        gIncomingInputsQueue := [] } 100
      (some [("clientTick", JVal.jnum (FVal.fin 5)), ("seq", JVal.jnum (FVal.fin 9))])
      64).gIncomingInputsQueue =
      [{ targetServerSimTickId := 101
         input := { clientId := 64, clientTickId := 5, clientInputSeq := 9,
                    buttonsMask := 0, axisX := FVal.fin 0, axisY := FVal.fin 0 } }] ∧
    (rcnet_simulation_update
      { gCurrentServerSimulationTickId := 7
        gIncomingInputsQueue :=
          [{ targetServerSimTickId := 8
             input := { clientId := 64, clientTickId := 5, clientInputSeq := 9,
                        buttonsMask := 0, axisX := FVal.fin 0, axisY := FVal.fin 0 } }]
        gScheduledInputsRing := initialScheduledInputsRing
        gLastAppliedInputSeqByClientId := (fun _ => 0) }).2 =
      [{ clientId := 64, clientTickId := 5, clientInputSeq := 9,
         buttonsMask := 0, axisX := FVal.fin 0, axisY := FVal.fin 0 }] ∧
    (rcnet_simulation_update
      { gCurrentServerSimulationTickId := 7
        gIncomingInputsQueue :=
          [{ targetServerSimTickId := 8
             input := { clientId := 64, clientTickId := 5, clientInputSeq := 9,
                        buttonsMask := 0, axisX := FVal.fin 0, axisY := FVal.fin 0 } }]
        gScheduledInputsRing := initialScheduledInputsRing
        gLastAppliedInputSeqByClientId := (fun _ => 0) }).1.gLastAppliedInputSeqByClientId
      = (fun _ => 0) := by
  have h := out_of_range_client_processed
    { gLastReceivedInputSeqByClientId := (fun _ => 0)
      gIncomingInputsQueue := [] } 100
    (some [("clientTick", JVal.jnum (FVal.fin 5)), ("seq", JVal.jnum (FVal.fin 9))])
    64
    { clientId := 64, clientTickId := 5, clientInputSeq := 9,
      buttonsMask := 0, axisX := FVal.fin 0, axisY := FVal.fin 0 }
    (by decide) (by decide)
  have hsim := h.2.2
    { gCurrentServerSimulationTickId := 7
      gIncomingInputsQueue :=
        [{ targetServerSimTickId := 8
           input := { clientId := 64, clientTickId := 5, clientInputSeq := 9,
                      buttonsMask := 0, axisX := FVal.fin 0, axisY := FVal.fin 0 } }]
      gScheduledInputsRing := initialScheduledInputsRing
      gLastAppliedInputSeqByClientId := (fun _ => 0) } rfl (by decide)
  exact ⟨by rw [h.2.1]; decide, hsim.1, hsim.2⟩

/-! ## NULL callbacks: claim C10 -/

/-- A simulation tick with a NULL simulation callback advances the tick id
and calls nothing; the registered callbacks are never modified by ticking. -/
theorem rcnet_engine_simulationTick_none (st : EngineState W)
    (h : st.callbacksServerEngine.rcnet_simulation_update = none) :
    (rcnet_engine_simulationTick st).world = st.world ∧
    (rcnet_engine_simulationTick st).simTickId = st.simTickId + 1 ∧
    (rcnet_engine_simulationTick st).callbacksServerEngine
      = st.callbacksServerEngine := by
  refine ⟨?_, rfl, rfl⟩
  simp [rcnet_engine_simulationTick, h]

/-- A network tick with a NULL network callback advances the tick id and
calls nothing. -/
theorem rcnet_engine_networkTick_none (st : EngineState W)
    (h : st.callbacksServerEngine.rcnet_network_update = none) :
    (rcnet_engine_networkTick st).world = st.world ∧
    (rcnet_engine_networkTick st).netTickId = st.netTickId + 1 ∧
    (rcnet_engine_networkTick st).callbacksServerEngine
      = st.callbacksServerEngine := by
  refine ⟨?_, rfl, rfl⟩
  simp [rcnet_engine_networkTick, h]

theorem simCatchUpLoop_world_of_none (fuel : ℕ) (ls : EngineLoopState W)
    (h : ls.engine.callbacksServerEngine.rcnet_simulation_update = none) :
    (simCatchUpLoop fuel ls).engine.world = ls.engine.world ∧
    (simCatchUpLoop fuel ls).engine.callbacksServerEngine
      = ls.engine.callbacksServerEngine := by
  induction fuel generalizing ls with
  | zero => exact ⟨rfl, rfl⟩
  | succ f ih =>
    rw [simCatchUpLoop]
    by_cases hc : ls.engine.simTickDurationNs ≤ ls.accSimNs
    · simp only [if_pos hc]
      have hstep := ih
        { engine := rcnet_engine_simulationTick ls.engine
          accSimNs := ls.accSimNs - ls.engine.simTickDurationNs
          accNetNs := ls.accNetNs } h
      have hw : (rcnet_engine_simulationTick ls.engine).world = ls.engine.world := by
        simp [rcnet_engine_simulationTick, h]
      exact ⟨hstep.1.trans hw, hstep.2⟩
    · simp [if_neg hc]

theorem netCatchUpLoop_world_of_none (fuel : ℕ) (ls : EngineLoopState W)
    (h : ls.engine.callbacksServerEngine.rcnet_network_update = none) :
    (netCatchUpLoop fuel ls).engine.world = ls.engine.world ∧
    (netCatchUpLoop fuel ls).engine.callbacksServerEngine
      = ls.engine.callbacksServerEngine := by
  induction fuel generalizing ls with
  | zero => exact ⟨rfl, rfl⟩
  | succ f ih =>
    rw [netCatchUpLoop]
    by_cases hc : ls.engine.netTickDurationNs ≤ ls.accNetNs
    · simp only [if_pos hc]
      have hstep := ih
        { engine := rcnet_engine_networkTick ls.engine
          accSimNs := ls.accSimNs
          accNetNs := ls.accNetNs - ls.engine.netTickDurationNs } h
      have hw : (rcnet_engine_networkTick ls.engine).world = ls.engine.world := by
        simp [rcnet_engine_networkTick, h]
      exact ⟨hstep.1.trans hw, hstep.2⟩
    · simp [if_neg hc]

theorem runIterationCore_world_of_none (ls1 : EngineLoopState W)
    (hs : ls1.engine.callbacksServerEngine.rcnet_simulation_update = none)
    (hn : ls1.engine.callbacksServerEngine.rcnet_network_update = none) :
    (netBacklogCap (netCatchUpLoop kMaxCatchUpTicks
        (simBacklogCap (simCatchUpLoop kMaxCatchUpTicks ls1)).1)).1.engine.world
      = ls1.engine.world ∧
    (netBacklogCap (netCatchUpLoop kMaxCatchUpTicks
        (simBacklogCap (simCatchUpLoop kMaxCatchUpTicks ls1)).1)).1.engine.callbacksServerEngine
      = ls1.engine.callbacksServerEngine := by
  have h2 := simCatchUpLoop_world_of_none kMaxCatchUpTicks ls1 hs
  have e2 := (simBacklogCap_spec (simCatchUpLoop kMaxCatchUpTicks ls1)).1
  have hn2 : (simBacklogCap (simCatchUpLoop kMaxCatchUpTicks
      ls1)).1.engine.callbacksServerEngine.rcnet_network_update = none := by
    rw [e2, h2.2]
    exact hn
  have h4 := netCatchUpLoop_world_of_none kMaxCatchUpTicks
    (simBacklogCap (simCatchUpLoop kMaxCatchUpTicks ls1)).1 hn2
  have e4 := (netBacklogCap_spec (netCatchUpLoop kMaxCatchUpTicks
    (simBacklogCap (simCatchUpLoop kMaxCatchUpTicks ls1)).1)).1
  constructor
  · rw [e4, h4.1, e2, h2.1]
  · rw [e4, h4.2, e2, h2.2]

set_option maxHeartbeats 1000000 in
theorem runIteration_world_of_none (frameNsRaw : ℕ) (ls : EngineLoopState W)
    (hs : ls.engine.callbacksServerEngine.rcnet_simulation_update = none)
    (hn : ls.engine.callbacksServerEngine.rcnet_network_update = none) :
    (rcnet_engine_runIteration frameNsRaw ls).loopState.engine.world
      = ls.engine.world ∧
    (rcnet_engine_runIteration frameNsRaw ls).loopState.engine.callbacksServerEngine
      = ls.engine.callbacksServerEngine := by
  exact runIterationCore_world_of_none
    { ls with
      accSimNs := ls.accSimNs +
        (if frameNsRaw > kMaxFrameClampNs then kMaxFrameClampNs else frameNsRaw)
      accNetNs := ls.accNetNs +
        (if frameNsRaw > kMaxFrameClampNs then kMaxFrameClampNs else frameNsRaw) }
    hs hn

theorem runLoop_world_of_none (frames : List ℕ) (ls : EngineLoopState W)
    (hs : ls.engine.callbacksServerEngine.rcnet_simulation_update = none)
    (hn : ls.engine.callbacksServerEngine.rcnet_network_update = none) :
    (rcnet_engine_runLoop frames ls).engine.world = ls.engine.world ∧
    (rcnet_engine_runLoop frames ls).engine.callbacksServerEngine
      = ls.engine.callbacksServerEngine := by
  induction frames generalizing ls with
  | nil => exact ⟨rfl, rfl⟩
  | cons f fs ih =>
    have hstep := runIteration_world_of_none f ls hs hn
    have hrest := ih (rcnet_engine_runIteration f ls).loopState
      (by rw [hstep.2]; exact hs) (by rw [hstep.2]; exact hn)
    rw [rcnet_engine_runLoop, List.foldl_cons]
    exact ⟨hrest.1.trans hstep.1,
      hrest.2.trans hstep.2⟩

/-- When the three loop-relevant hooks are NULL, the loop followed by the
guarded `rcnet_unload` call leaves the world untouched. -/
theorem runLoop_then_unload_world (frames : List ℕ) (ls : EngineLoopState W)
    (hs : ls.engine.callbacksServerEngine.rcnet_simulation_update = none)
    (hn : ls.engine.callbacksServerEngine.rcnet_network_update = none)
    (hu : ls.engine.callbacksServerEngine.rcnet_unload = none) :
    (applyUnloadHook (rcnet_engine_runLoop frames ls).engine).world
      = ls.engine.world := by
  have h := runLoop_world_of_none frames ls hs hn
  have hu' : (rcnet_engine_runLoop frames ls).engine.callbacksServerEngine.rcnet_unload
      = none := by
    rw [h.2]
    exact hu
  rw [applyUnloadHook, hu']
  exact h.1


/-- The six timing fields used below: both tick periods, both tick ids and
both accumulators agree between two loop states. -/
def SameTiming (a b : EngineLoopState W) : Prop :=
  a.engine.simTickDurationNs = b.engine.simTickDurationNs ∧
  a.engine.netTickDurationNs = b.engine.netTickDurationNs ∧
  a.engine.simTickId = b.engine.simTickId ∧
  a.engine.netTickId = b.engine.netTickId ∧
  a.accSimNs = b.accSimNs ∧
  a.accNetNs = b.accNetNs

theorem simCatchUpLoop_timing (fuel : ℕ) (a b : EngineLoopState W)
    (h : SameTiming a b) :
    SameTiming (simCatchUpLoop fuel a) (simCatchUpLoop fuel b) := by
  induction fuel generalizing a b with
  | zero => exact h
  | succ f ih =>
    obtain ⟨h1, h2, h3, h4, h5, h6⟩ := h
    rw [simCatchUpLoop, simCatchUpLoop]
    by_cases hc : b.engine.simTickDurationNs ≤ b.accSimNs
    · rw [if_pos (by rw [h1, h5]; exact hc), if_pos hc]
      exact ih _ _ ⟨h1, h2, by simp [rcnet_engine_simulationTick, h3],
        by simp [rcnet_engine_simulationTick, h4], by simp [h1, h5], h6⟩
    · rw [if_neg (by rw [h1, h5]; exact hc), if_neg hc]
      exact ⟨h1, h2, h3, h4, h5, h6⟩

theorem netCatchUpLoop_timing (fuel : ℕ) (a b : EngineLoopState W)
    (h : SameTiming a b) :
    SameTiming (netCatchUpLoop fuel a) (netCatchUpLoop fuel b) := by
  induction fuel generalizing a b with
  | zero => exact h
  | succ f ih =>
    obtain ⟨h1, h2, h3, h4, h5, h6⟩ := h
    rw [netCatchUpLoop, netCatchUpLoop]
    by_cases hc : b.engine.netTickDurationNs ≤ b.accNetNs
    · rw [if_pos (by rw [h2, h6]; exact hc), if_pos hc]
      exact ih _ _ ⟨h1, h2, by simp [rcnet_engine_networkTick, h3],
        by simp [rcnet_engine_networkTick, h4], h5, by simp [h2, h6]⟩
    · rw [if_neg (by rw [h2, h6]; exact hc), if_neg hc]
      exact ⟨h1, h2, h3, h4, h5, h6⟩

theorem simBacklogCap_timing (a b : EngineLoopState W) (h : SameTiming a b) :
    SameTiming (simBacklogCap a).1 (simBacklogCap b).1 := by
  obtain ⟨h1, h2, h3, h4, h5, h6⟩ := h
  rw [simBacklogCap, simBacklogCap]
  by_cases hc : b.engine.simTickDurationNs ≤ b.accSimNs
  · rw [if_pos (by rw [h1, h5]; exact hc), if_pos hc]
    exact ⟨h1, h2, h3, h4, h1, h6⟩
  · rw [if_neg (by rw [h1, h5]; exact hc), if_neg hc]
    exact ⟨h1, h2, h3, h4, h5, h6⟩

theorem netBacklogCap_timing (a b : EngineLoopState W) (h : SameTiming a b) :
    SameTiming (netBacklogCap a).1 (netBacklogCap b).1 := by
  obtain ⟨h1, h2, h3, h4, h5, h6⟩ := h
  rw [netBacklogCap, netBacklogCap]
  by_cases hc : b.engine.netTickDurationNs ≤ b.accNetNs
  · rw [if_pos (by rw [h2, h6]; exact hc), if_pos hc]
    exact ⟨h1, h2, h3, h4, h5, h2⟩
  · rw [if_neg (by rw [h2, h6]; exact hc), if_neg hc]
    exact ⟨h1, h2, h3, h4, h5, h6⟩

set_option maxHeartbeats 1000000 in
theorem runIteration_timing (frameNsRaw : ℕ) (a b : EngineLoopState W)
    (h : SameTiming a b) :
    SameTiming (rcnet_engine_runIteration frameNsRaw a).loopState
      (rcnet_engine_runIteration frameNsRaw b).loopState := by
  obtain ⟨h1, h2, h3, h4, h5, h6⟩ := h
  exact netBacklogCap_timing _ _
    (netCatchUpLoop_timing kMaxCatchUpTicks _ _
      (simBacklogCap_timing _ _
        (simCatchUpLoop_timing kMaxCatchUpTicks
          { a with
            accSimNs := a.accSimNs +
              (if frameNsRaw > kMaxFrameClampNs then kMaxFrameClampNs else frameNsRaw)
            accNetNs := a.accNetNs +
              (if frameNsRaw > kMaxFrameClampNs then kMaxFrameClampNs else frameNsRaw) }
          { b with
            accSimNs := b.accSimNs +
              (if frameNsRaw > kMaxFrameClampNs then kMaxFrameClampNs else frameNsRaw)
            accNetNs := b.accNetNs +
              (if frameNsRaw > kMaxFrameClampNs then kMaxFrameClampNs else frameNsRaw) }
          ⟨h1, h2, h3, h4, by simp [h5], by simp [h6]⟩)))

theorem runLoop_timing (frames : List ℕ) (a b : EngineLoopState W)
    (h : SameTiming a b) :
    SameTiming (rcnet_engine_runLoop frames a) (rcnet_engine_runLoop frames b) := by
  induction frames generalizing a b with
  | nil => exact h
  | cons f fs ih =>
    rw [rcnet_engine_runLoop, rcnet_engine_runLoop, List.foldl_cons, List.foldl_cons]
    exact ih _ _ (runIteration_timing f a b h)

/-- The load and unload hook calls touch only the world. -/
theorem applyLoadHook_timing (e : EngineState W) :
    (applyLoadHook e).simTickDurationNs = e.simTickDurationNs ∧
    (applyLoadHook e).netTickDurationNs = e.netTickDurationNs ∧
    (applyLoadHook e).simTickId = e.simTickId ∧
    (applyLoadHook e).netTickId = e.netTickId := by
  rw [applyLoadHook]
  cases e.callbacksServerEngine.rcnet_load with
  | some f => exact ⟨rfl, rfl, rfl, rfl⟩
  | none => exact ⟨rfl, rfl, rfl, rfl⟩

theorem applyUnloadHook_timing (e : EngineState W) :
    (applyUnloadHook e).simTickId = e.simTickId ∧
    (applyUnloadHook e).netTickId = e.netTickId := by
  rw [applyUnloadHook]
  cases e.callbacksServerEngine.rcnet_unload with
  | some f => exact ⟨rfl, rfl⟩
  | none => exact ⟨rfl, rfl⟩

set_option maxHeartbeats 1000000 in
/-- C10.  Running the engine with a NULL callbacks pointer — or with a
fully-zeroed callback struct — still initialises, runs the tick loop over
any frame trace, and shuts down: each of the four hooks is guarded by a
NULL check, so the host world is never touched, and both tick counters
advance exactly as they would with any callbacks registered. -/
theorem null_callbacks_run_safely (hzS hzN : ℤ) (frames : List ℕ) (w0 : W) :
    (rcnet_engine_run (W := W) none hzS hzN frames w0).world = w0 ∧
    rcnet_engine_run (some (initialCallbacks W)) hzS hzN frames w0
      = rcnet_engine_run none hzS hzN frames w0 ∧
    (∀ st : EngineState W, st.callbacksServerEngine.rcnet_simulation_update = none →
      (rcnet_engine_simulationTick st).world = st.world ∧
      (rcnet_engine_simulationTick st).simTickId = st.simTickId + 1) ∧
    (∀ st : EngineState W, st.callbacksServerEngine.rcnet_network_update = none →
      (rcnet_engine_networkTick st).world = st.world ∧
      (rcnet_engine_networkTick st).netTickId = st.netTickId + 1) ∧
    (∀ cbs : RCNET_Callbacks W,
      (rcnet_engine_run (some cbs) hzS hzN frames w0).simTickId
        = (rcnet_engine_run (W := W) none hzS hzN frames w0).simTickId ∧
      (rcnet_engine_run (some cbs) hzS hzN frames w0).netTickId
        = (rcnet_engine_run (W := W) none hzS hzN frames w0).netTickId) := by
  refine ⟨?_, rfl, ?_, ?_, ?_⟩
  · exact runLoop_then_unload_world (W := W) frames
      { engine :=
          { callbacksServerEngine := initialCallbacks W
            simTickRateHz := (if hzS > 0 then hzS.toNat else 60)
            netTickRateHz := (if hzN > 0 then hzN.toNat else 20)
            simTickDurationNs := 1000000000 / (if hzS > 0 then hzS.toNat else 60)
            netTickDurationNs := 1000000000 / (if hzN > 0 then hzN.toNat else 20)
            simFixedDt := 1 / ((if hzS > 0 then hzS.toNat else 60 : ℕ) : ℚ)
            simTickId := 0
            netTickId := 0
            world := w0 }
        accSimNs := 0
        accNetNs := 0 } rfl rfl rfl
  · intro st h
    exact ⟨(rcnet_engine_simulationTick_none st h).1, rfl⟩
  · intro st h
    exact ⟨(rcnet_engine_networkTick_none st h).1, rfl⟩
  · intro cbs
    let mk : RCNET_Callbacks W → EngineState W := fun c =>
      { callbacksServerEngine := c
        simTickRateHz := (if hzS > 0 then hzS.toNat else 60)
        netTickRateHz := (if hzN > 0 then hzN.toNat else 20)
        simTickDurationNs := 1000000000 / (if hzS > 0 then hzS.toNat else 60)
        netTickDurationNs := 1000000000 / (if hzN > 0 then hzN.toNat else 20)
        simFixedDt := 1 / ((if hzS > 0 then hzS.toNat else 60 : ℕ) : ℚ)
        simTickId := 0
        netTickId := 0
        world := w0 }
    have hstart : ∀ c1 c2 : RCNET_Callbacks W,
        SameTiming (W := W)
          { engine := applyLoadHook (mk c1), accSimNs := 0, accNetNs := 0 }
          { engine := applyLoadHook (mk c2), accSimNs := 0, accNetNs := 0 } := by
      intro c1 c2
      have t1 := applyLoadHook_timing (mk c1)
      have t2 := applyLoadHook_timing (mk c2)
      exact ⟨t1.1.trans t2.1.symm, t1.2.1.trans t2.2.1.symm,
        t1.2.2.1.trans t2.2.2.1.symm, t1.2.2.2.trans t2.2.2.2.symm, rfl, rfl⟩
    have hloop := runLoop_timing frames _ _
      (hstart (rcnet_engine_setCallbacks (initialCallbacks W) cbs) (initialCallbacks W))
    have hu1 := applyUnloadHook_timing
      (rcnet_engine_runLoop frames
        { engine := applyLoadHook (mk (rcnet_engine_setCallbacks (initialCallbacks W) cbs))
          accSimNs := 0, accNetNs := 0 }).engine
    have hu2 := applyUnloadHook_timing
      (rcnet_engine_runLoop frames
        { engine := applyLoadHook (mk (initialCallbacks W))
          accSimNs := 0, accNetNs := 0 }).engine
    exact ⟨hu1.1.trans (hloop.2.2.1.trans hu2.1.symm),
      hu1.2.trans (hloop.2.2.2.1.trans hu2.2.symm)⟩

/-- Witness for C10: a run with a NULL callbacks pointer over one 250 ms
frame leaves the world untouched, and the guarded tick helpers advance the
counters of a concrete all-NULL state. -/
theorem null_callbacks_run_safely_witness :
    (rcnet_engine_run (W := PUnit) none 60 20 [250000000] PUnit.unit).world
      = PUnit.unit ∧
    (rcnet_engine_simulationTick
      { callbacksServerEngine := initialCallbacks PUnit
        simTickRateHz := 60
        netTickRateHz := 20
        simTickDurationNs := 16666666
        netTickDurationNs := 50000000
        simFixedDt := 0
        simTickId := 0
        netTickId := 0
        world := PUnit.unit }).simTickId = 1 ∧
    (rcnet_engine_networkTick
      { callbacksServerEngine := initialCallbacks PUnit
        simTickRateHz := 60
        netTickRateHz := 20
        simTickDurationNs := 16666666
        netTickDurationNs := 50000000
        simFixedDt := 0
        simTickId := 0
        netTickId := 0
        world := PUnit.unit }).netTickId = 1 := by
  have h := null_callbacks_run_safely (W := PUnit) 60 20 [250000000] PUnit.unit
  refine ⟨h.1, ?_, ?_⟩
  · exact (h.2.2.1
      { callbacksServerEngine := initialCallbacks PUnit
        simTickRateHz := 60
        netTickRateHz := 20
        simTickDurationNs := 16666666
        netTickDurationNs := 50000000
        simFixedDt := 0
        simTickId := 0
        netTickId := 0
        world := PUnit.unit } rfl).2
  · exact (h.2.2.2.1
      { callbacksServerEngine := initialCallbacks PUnit
        simTickRateHz := 60
        netTickRateHz := 20
        simTickDurationNs := 16666666
        netTickDurationNs := 50000000
        simFixedDt := 0
        simTickId := 0
        netTickId := 0
        world := PUnit.unit } rfl).2
